import Mathlib

/-!
Verification of the bpRNAStructure library (Structure.py, StructureCreator.py,
StructureComponents/) against its specification.

The development is a shallow embedding of the Python source.  Python runtime
behaviour is made explicit:

* fallible operations return `Except PyErr A`;
* Python `list`/`str` indexing (negative indices wrap, out of range raises
  `IndexError`) is `pyIdx`;
* the numpy object array used for the per-nucleotide component array is a
  `List (Option String)` with numpy indexing semantics (`npGet`/`npSet`);
* Python dictionaries keyed by strings are association lists with
  insertion-order preserved and last-write-wins update (`Dict`/`dset`);
* the floating point arithmetic of the energy functions is modelled over `Rat`;
  `numpy.log` / `math.log` is an abstract function `log : Rat → Rat` carried in
  the `Tables` parameter record together with the thermodynamic parameter
  tables (the tables are data files external to the analysed core, so they are
  abstract parameters here).

Input files are modelled as the list of their lines, each line given without
its trailing newline character and the file assumed to be newline terminated,
matching `features = f.read().split(chr(10))[:-1]` in `StructureCreator.create`.
-/

namespace BpRNA

/-- Python runtime exceptions that the embedded code can raise.
`unboundLocal` models `UnboundLocalError` (reading a never-assigned local),
`nameErrorNp` models the `NameError` raised when `Hairpin.py` evaluates
`np.log` without having imported numpy, and `structureFileNotProvided` is the
custom exception raised for a filename without the `.st` extension.
`outOfFuel` is an artefact of the fuel-based loop embedding; it is never
produced when the fuel is at least the length of the processed list
(see `processFeatures_fuel_irrelevant`). -/
inductive PyErr where
  | keyError
  | indexError
  | typeError
  | attributeError
  | valueError
  | nameErrorNp
  | unboundLocal
  | structureFileNotProvided
  | outOfFuel
  deriving DecidableEq, Repr

/-- Python whitespace test used by `str.strip()`. -/
def pyIsSpace (c : Char) : Bool :=
  c = ' ' || c = '\t' || c = '\n' || c = '\r' || c = '\x0b' || c = '\x0c'

/-- Python `s.strip()`: remove whitespace from both ends. -/
def pyStrip (s : String) : String :=
  (((s.toList.dropWhile pyIsSpace).reverse.dropWhile pyIsSpace).reverse).asString

/-- Python `s.strip(c)` for a single strip character: remove every copy of
that character from both ends. -/
def pyStripChar (c : Char) (s : String) : String :=
  (((s.toList.dropWhile (· = c)).reverse.dropWhile (· = c)).reverse).asString

/-- Worker for `pySplit`: scan the characters, emitting the accumulated
token whenever the separator occurs at the cursor; `skip` counts separator
characters still to be consumed after a match. -/
def splitOnGo (sep : List Char) : List Char → List Char → Nat →
    List (List Char)
  | [], acc, _ => [acc.reverse]
  | c :: rest, acc, 0 =>
      if sep.isPrefixOf (c :: rest) then
        acc.reverse :: splitOnGo sep rest [] (sep.length - 1)
      else splitOnGo sep rest (c :: acc) 0
  | _ :: rest, acc, skip + 1 => splitOnGo sep rest acc skip

/-- Python `s.split(sep)` for a non-empty separator: delimited fields kept
verbatim, empty fields included (so consecutive separators give empty
strings, like the source relies on for the NCBP parent-unit field). -/
def pySplit (s sep : String) : List String :=
  (splitOnGo sep.toList s.toList [] 0).map List.asString

/-- Python `s[-n:]` (the last `n` characters, fewer when the string is
short), used for the extension check. -/
def pyTakeRight (s : String) (n : Nat) : String :=
  ((s.toList.reverse.take n).reverse).asString

/-- Accumulate decimal digits; any non-digit character fails. -/
def parseNatGo : List Char → Nat → Option Nat
  | [], acc => some acc
  | c :: rest, acc =>
      if c.isDigit then parseNatGo rest (acc * 10 + (c.toNat - 48))
      else none

/-- A non-empty all-digit character list as a natural number. -/
def parseNatDigits (cs : List Char) : Option Nat :=
  if cs.isEmpty then none else parseNatGo cs 0

/-- Decimal integer syntax accepted by Python `int`: an optional sign
followed by digits. -/
def pyIntChars : List Char → Option Int
  | '-' :: rest => (parseNatDigits rest).map (fun n => -(n : Int))
  | '+' :: rest => (parseNatDigits rest).map (fun n => (n : Int))
  | cs => (parseNatDigits cs).map (fun n => (n : Int))

/-- Python `int(s)`: surrounding whitespace tolerated, anything unparsable
raises `ValueError`. -/
def pyInt (s : String) : Except PyErr Int :=
  match pyIntChars (pyStrip s).toList with
  | some n => Except.ok n
  | none => Except.error PyErr.valueError

/-- Python sequence indexing for lists: a negative index wraps once from the
end, anything still out of range raises `IndexError`. -/
def pyIdx {α : Type} (xs : List α) (i : Int) : Except PyErr α :=
  let n : Int := xs.length
  let j : Int := if i < 0 then n + i else i
  if j < 0 then Except.error PyErr.indexError
  else
    match xs[j.toNat]? with
    | some a => Except.ok a
    | none => Except.error PyErr.indexError

/-- Python string indexing `s[i]`; the result is a one-character string. -/
def pyCharS (s : String) (i : Int) : Except PyErr String :=
  (pyIdx s.toList i).map (fun c => String.singleton c)

/-- Python `str.isdigit` restricted to the ASCII digits, as used on the
one-character strings produced by indexing. -/
def pyIsDigitStr (s : String) : Bool :=
  s.toList ≠ [] && s.toList.all Char.isDigit

/-- Tuple unpacking `a, b = t`: raises `ValueError` unless the tuple has
exactly two components. -/
def tup2 {α : Type} : List α → Except PyErr (α × α)
  | [a, b] => Except.ok (a, b)
  | _ => Except.error PyErr.valueError

/-- Python `range(a, b)` over integers. -/
def intRange (a b : Int) : List Int :=
  (List.range (b - a).toNat).map (fun k => a + (k : Int))

/-- One cell of the numpy object component array: `none` is the Python `None`
that `np.empty(..., dtype=object)` fills in, `some l` is a component label. -/
abbrev Cell := Option String

/-- The numpy object array holding per-nucleotide component labels. -/
abbrev NpArr := List Cell

/-- numpy element read: a negative index wraps once, out of range raises. -/
def npGet (arr : NpArr) (i : Int) : Except PyErr Cell :=
  pyIdx arr i

/-- numpy element write: same index semantics as `npGet`. -/
def npSet (arr : NpArr) (i : Int) (v : Cell) : Except PyErr NpArr :=
  let n : Int := arr.length
  let j : Int := if i < 0 then n + i else i
  if j < 0 || n ≤ j then Except.error PyErr.indexError
  else Except.ok (arr.set j.toNat v)

/-- `np.empty(n, dtype=object)`: an array of `n` `None` cells; a negative
size raises `ValueError`. -/
def npEmpty (n : Int) : Except PyErr NpArr :=
  if n < 0 then Except.error PyErr.valueError
  else Except.ok (List.replicate n.toNat none)

/-- Assign `v` to every array cell with index in `range(a, b)`. -/
def npSetRange (arr : NpArr) (a b : Int) (v : Cell) : Except PyErr NpArr :=
  (intRange a b).foldlM (fun acc i => npSet acc i v) arr

/-- A Python dictionary with string keys, as an insertion-ordered
association list. -/
abbrev Dict (α : Type) := List (String × α)

/-- Dictionary lookup. -/
def dget {α : Type} (d : Dict α) (k : String) : Option α :=
  (d.find? (fun p => p.1 = k)).map Prod.snd

/-- Dictionary update: overwrite in place if the key exists (keeping its
position), otherwise append, like a Python `dict` assignment. -/
def dset {α : Type} (d : Dict α) (k : String) (v : α) : Dict α :=
  if (d.find? (fun p => p.1 = k)).isSome then
    d.map (fun p => if p.1 = k then (k, v) else p)
  else d ++ [(k, v)]

/-- Dictionary keys in insertion order. -/
def dkeys {α : Type} (d : Dict α) : List String :=
  d.map Prod.fst

/-- Dictionary values in insertion order. -/
def dvalues {α : Type} (d : Dict α) : List α :=
  d.map Prod.snd

/-- Python `d[k]`: the stored value, or a `KeyError`. -/
def dgetOrKeyError {α : Type} (d : Dict α) (k : String) : Except PyErr α :=
  match dget d k with
  | some v => Except.ok v
  | none => Except.error PyErr.keyError

/-- A Python value that is either an integer or a string.  Needed because
`StructureCreator._create_bulge_from_file_line` stores a mixed
`(index, base)` tuple into the trailing closing-pair span field when it
reorders the trailing pair. -/
inductive PyV where
  | int (n : Int)
  | str (s : String)
  deriving DecidableEq, Repr

/-- The value passed for an `InternalLoop` neighbor parameter: the default is
a pair of strings, but `StructureCreator._create_internal_loop_from_file_line`
passes the loop-2 closing-pair index tuple positionally into the
`neighbor5p` slot. -/
inductive NbArg where
  | sp (p : String × String)
  | ints (xs : List Int)
  deriving DecidableEq, Repr

/-- The value stored in `InternalLoop._closingPairsSpan`: the default is a
pair of integer pairs, but the creator passes the loop-1 closing-pair index
tuple positionally into that slot. -/
inductive CpsSpanV where
  | pairs (p : (Int × Int) × (Int × Int))
  | ints (xs : List Int)
  deriving DecidableEq, Repr

/-- Stem record (`StructureComponents/Stem.py`).  `sequence` is the zipped
base-pair list built in `__init__`; spans are 1-indexed inclusive integer
pairs; `span()` index tuples that the creator never unpacks stay lists. -/
structure Stem where
  label : String
  sequence5p : String
  sequence3p : String
  sequence : List (String × String)
  sequenceLen : Nat
  sequence5pSpan : Int × Int
  sequence3pSpan : Int × Int
  neighbor5p : String × String
  neighbor3p : String × String
  adjacentBulges : Bool × Bool
  deriving DecidableEq, Repr

/-- `zip(list(sequence5p), list(sequence3p[::-1]))` as a list of
one-character-string pairs. -/
def zipPairs (s5 s3 : String) : List (String × String) :=
  (s5.toList.zip s3.toList.reverse).map
    (fun p => (String.singleton p.1, String.singleton p.2))

/-- `Stem.__init__` as called by the creator: five positional arguments, the
neighbor and adjacent-bulge fields take their defaults. -/
def Stem.make (label s5 s3 : String) (sp5 sp3 : Int × Int) : Stem :=
  { label := label
    sequence5p := s5
    sequence3p := s3
    sequence := zipPairs s5 s3
    sequenceLen := (s5.length + s3.length) / 2
    sequence5pSpan := sp5
    sequence3pSpan := sp3
    neighbor5p := ("", "")
    neighbor3p := ("", "")
    adjacentBulges := (false, false) }

/-- Hairpin record (`StructureComponents/Hairpin.py`).  The hairpin span is
stored exactly as the tuple returned by `split_feature_index_string`, which
the creator never unpacks, hence a list of integers. -/
structure Hairpin where
  label : String
  sequence : String
  sequenceLen : Nat
  span : List Int
  closingPair : String × String
  closingPairSpan : Int × Int
  pk : Option String
  neighbors : String × String
  deriving DecidableEq, Repr

/-- `Hairpin.__init__` as called by the creator. -/
def Hairpin.make (label seq : String) (span : List Int)
    (closingPair : String × String) (closingPairSpan : Int × Int) : Hairpin :=
  { label := label
    sequence := seq
    sequenceLen := seq.length
    span := span
    closingPair := closingPair
    closingPairSpan := closingPairSpan
    pk := none
    neighbors := ("", "") }

/-- Bulge record (`StructureComponents/Bulge.py`).  The trailing closing-pair
span holds `PyV` values because the creator can store a mixed tuple there. -/
structure Bulge where
  label : String
  sequence : String
  sequenceLen : Nat
  span : Int × Int
  closingPair5p : String × String
  closingPair5pSpan : Int × Int
  closingPair3p : String × String
  closingPair3pSpan : PyV × PyV
  pk : Option String
  neighbor5p : Option String
  neighbor3p : Option String
  deriving DecidableEq, Repr

/-- `Bulge.__init__` as called by the creator; the `pk` and neighbor fields
take their defaults (`None`). -/
def Bulge.make (label seq : String) (span : Int × Int)
    (cp5p : String × String) (cp5pSpan : Int × Int)
    (cp3p : String × String) (cp3pSpan : PyV × PyV) : Bulge :=
  { label := label
    sequence := seq
    sequenceLen := seq.length
    span := span
    closingPair5p := cp5p
    closingPair5pSpan := cp5pSpan
    closingPair3p := cp3p
    closingPair3pSpan := cp3pSpan
    pk := none
    neighbor5p := none
    neighbor3p := none }

/-- InternalLoop record (`StructureComponents/InternalLoop.py`).  The two
half spans are the un-unpacked index tuples (lists).  `__init__` assigns
`self._neighbor3p = neighbor5p`, so both stored neighbor fields come from the
`neighbor5p` argument. -/
structure InternalLoop where
  parentLabel : String
  label5p : String
  label3p : String
  loop5p : String
  loop3p : String
  loopsLen : Nat × Nat
  span5p : List Int
  span3p : List Int
  closingPairs : (String × String) × (String × String)
  closingPairsSpan : CpsSpanV
  neighbor5p : NbArg
  neighbor3p : NbArg
  strict : Bool
  deriving DecidableEq, Repr

/-- `InternalLoop.__init__`: note the faithful copy of the source line
`self._neighbor3p = neighbor5p`. -/
def InternalLoop.make (pLabel label5p label3p loop5p loop3p : String)
    (loop5pSpan loop3pSpan : List Int)
    (closingPairs : (String × String) × (String × String))
    (closingPairsSpan : CpsSpanV) (neighbor5p neighbor3p : NbArg) :
    InternalLoop :=
  { parentLabel := pLabel
    label5p := label5p
    label3p := label3p
    loop5p := loop5p
    loop3p := loop3p
    loopsLen := (loop5p.length, loop3p.length)
    span5p := loop5pSpan
    span3p := loop3pSpan
    closingPairs := closingPairs
    closingPairsSpan := closingPairsSpan
    neighbor5p := neighbor5p
    neighbor3p := neighbor5p
    strict := true }

/-- `InternalLoop.neighbors()`. -/
def InternalLoop.neighborsAcc (il : InternalLoop) : NbArg × NbArg :=
  (il.neighbor5p, il.neighbor3p)

/-- Multiloop record (`StructureComponents/Multiloop.py`).  Per-subunit data
lives in dictionaries keyed by the one-character subunit label. -/
structure Multiloop where
  parentLabel : String
  subunitLabels : List String
  numSubunits : Nat
  sequences : Dict String
  spans : Dict (List Int)
  closingPairs : Dict ((String × String) × (String × String))
  closingPairsSpan : Dict ((List Int) × (List Int))
  deriving DecidableEq, Repr

/-- ExternalLoop record (`StructureComponents/ExternalLoop.py`). -/
structure ExternalLoop where
  label : String
  sequence : String
  sequenceLen : Nat
  span : List Int
  closingPair5p : String × String
  closingPair5pSpan : List Int
  closingPair3p : String × String
  closingPair3pSpan : List Int
  neighbor5p : Option String
  neighbor3p : Option String
  deriving DecidableEq, Repr

/-- `ExternalLoop.__init__` as called by the creator. -/
def ExternalLoop.make (label seq : String) (span : List Int)
    (cp5p : String × String) (cp5pSpan : List Int)
    (cp3p : String × String) (cp3pSpan : List Int) : ExternalLoop :=
  { label := label
    sequence := seq
    sequenceLen := seq.length
    span := span
    closingPair5p := cp5p
    closingPair5pSpan := cp5pSpan
    closingPair3p := cp3p
    closingPair3pSpan := cp3pSpan
    neighbor5p := none
    neighbor3p := none }

/-- End record (`StructureComponents/End.py`). -/
structure EndRec where
  label : String
  sequence : String
  sequenceLen : Nat
  span : List Int
  neighbor : Option String
  deriving DecidableEq, Repr

/-- `End.__init__` as called by the creator. -/
def EndRec.make (label seq : String) (span : List Int) : EndRec :=
  { label := label
    sequence := seq
    sequenceLen := seq.length
    span := span
    neighbor := none }

/-- NCBP record (`StructureComponents/NCBP.py`). -/
structure NCBP where
  label : String
  basePair : String × String
  basePairSpan : Int × Int
  parentUnit : Option String
  deriving DecidableEq, Repr

/-- The Structure aggregate (`Structure.py`).  Whole-molecule descriptors
start as `None`; one insertion-ordered dictionary per record kind; the
component array is `None` until the `#Length:` header line allocates it. -/
structure Structure where
  name : Option String
  length : Option Int
  pageNum : Option Int
  sequence : Option String
  dbn : Option String
  structureArray : Option String
  varna : Option String
  stems : Dict Stem
  hairpins : Dict Hairpin
  bulges : Dict Bulge
  internalLoops : Dict InternalLoop
  multiLoops : Dict Multiloop
  externalLoops : Dict ExternalLoop
  pk : Dict String
  ncbp : Dict NCBP
  ends : Dict EndRec
  componentArray : Option NpArr
  deriving DecidableEq, Repr

/-- `Structure.__init__`: the empty aggregate. -/
def initialStructure : Structure :=
  { name := none
    length := none
    pageNum := none
    sequence := none
    dbn := none
    structureArray := none
    varna := none
    stems := []
    hairpins := []
    bulges := []
    internalLoops := []
    multiLoops := []
    externalLoops := []
    pk := []
    ncbp := []
    ends := []
    componentArray := none }

/-- `Structure.resetStructure()`: every member back to its initial state. -/
def Structure.resetStructure (_ : Structure) : Structure :=
  initialStructure

/-- `Structure.features()`: stem, bulge, hairpin and internal-loop labels
only, in that order. -/
def Structure.features (st : Structure) : List String :=
  dkeys st.stems ++ dkeys st.bulges ++ dkeys st.hairpins ++
    dkeys st.internalLoops

/-- A component record as a runtime object, for the dispatch performed by
`Structure.component`. -/
inductive CompObj where
  | stem (s : Stem)
  | hairpin (h : Hairpin)
  | bulge (b : Bulge)
  | internalLoop (il : InternalLoop)
  | multiloop (m : Multiloop)
  | externalLoop (x : ExternalLoop)
  | endRec (e : EndRec)
  | ncbp (n : NCBP)
  deriving DecidableEq, Repr

/-- The `label()` method of each record kind (for internal loops and
multiloops it returns the parent label). -/
def CompObj.objLabel : CompObj → String
  | CompObj.stem s => s.label
  | CompObj.hairpin h => h.label
  | CompObj.bulge b => b.label
  | CompObj.internalLoop il => il.parentLabel
  | CompObj.multiloop m => m.parentLabel
  | CompObj.externalLoop x => x.label
  | CompObj.endRec e => e.label
  | CompObj.ncbp n => n.label

/-- `Structure.component(label)`: dispatch on the first character of the
label to the per-kind dictionary.  Returns `none` for a dictionary miss or an
unrecognised leading character (the source prints a message and returns
`None`); indexing an empty label raises `IndexError`. -/
def Structure.componentLookup (st : Structure) (label : String) :
    Except PyErr (Option CompObj) := do
  let c0 ← pyCharS label 0
  if c0 = "S" then Except.ok ((dget st.stems label).map CompObj.stem)
  else if c0 = "H" then Except.ok ((dget st.hairpins label).map CompObj.hairpin)
  else if c0 = "B" then Except.ok ((dget st.bulges label).map CompObj.bulge)
  else if c0 = "X" then
    Except.ok ((dget st.externalLoops label).map CompObj.externalLoop)
  else if c0 = "E" then Except.ok ((dget st.ends label).map CompObj.endRec)
  else if c0 = "N" then Except.ok ((dget st.ncbp label).map CompObj.ncbp)
  else if c0 = "I" then
    Except.ok ((dget st.internalLoops label).map CompObj.internalLoop)
  else if c0 = "M" then
    Except.ok ((dget st.multiLoops label).map CompObj.multiloop)
  else Except.ok none

/-- The value returned by the `span()` method of a component object, shaped
as `Structure.neighbors` observes it: a flat tuple of integers, a pair of
integer tuples, or (for multiloops) a dictionary. -/
inductive SpanVal where
  | flat (xs : List Int)
  | nested (xs ys : List Int)
  | dictSpan (d : Dict (List Int))
  deriving DecidableEq, Repr

/-- `span()` per record kind. -/
def CompObj.spanOf : CompObj → SpanVal
  | CompObj.stem s =>
      SpanVal.nested [s.sequence5pSpan.1, s.sequence5pSpan.2]
        [s.sequence3pSpan.1, s.sequence3pSpan.2]
  | CompObj.hairpin h => SpanVal.flat h.span
  | CompObj.bulge b => SpanVal.flat [b.span.1, b.span.2]
  | CompObj.internalLoop il => SpanVal.nested il.span5p il.span3p
  | CompObj.multiloop m => SpanVal.dictSpan m.spans
  | CompObj.externalLoop x => SpanVal.flat x.span
  | CompObj.endRec e => SpanVal.flat e.span
  | CompObj.ncbp n => SpanVal.flat [n.basePairSpan.1, n.basePairSpan.2]

/-- The value of `Structure.neighbors(label)` (label mode, `object=False`):
`None` when the label is not in the component array, otherwise a flat or
nested tuple whose entries are component-array cells or the string EOM. -/
inductive NeighborsRet where
  | flat (n5 n3 : Option String)
  | nested (a b c d : Option String)
  | noneRet
  deriving DecidableEq, Repr

/-- One label-mode slot: `componentArray[i]` with the bare `except` mapping
any exception to the string EOM. -/
def resolveLabel (arr : NpArr) (i : Int) : Option String :=
  match npGet arr i with
  | Except.ok c => c
  | Except.error _ => some "EOM"

/-- One label-mode slot whose index expression first reads `span[k]`; an
exception in that read is also caught and becomes EOM.  `off` is the offset
added to the span entry (−2 on the 5-prime side, 0 on the 3-prime side). -/
def resolveSpanIdx (arr : NpArr) (xs : List Int) (k : Nat) (off : Int) :
    Option String :=
  match pyIdx xs (k : Int) with
  | Except.ok a => resolveLabel arr (a + off)
  | Except.error _ => some "EOM"

/-- `Structure.neighbors(label)`, label mode.  Mirrors the source: the
membership test on the component array, the span-shape test
`all(type(i) is int for i in span)`, the per-slot `try`/`except` blocks, and
the cross-paired nested result
`((seq1_neighbor5p, seq2_neighbor3p), (seq2_neighbor5p, seq1_neighbor3p))`. -/
def Structure.neighbors (st : Structure) (label : String) :
    Except PyErr NeighborsRet := do
  let arr ← match st.componentArray with
    | none => Except.error PyErr.typeError
    | some a => Except.ok a
  if arr.contains (some label) then do
    let o ← st.componentLookup label
    match o with
    | none => Except.error PyErr.attributeError
    | some obj =>
      match obj.spanOf with
      | SpanVal.flat xs =>
          Except.ok (NeighborsRet.flat (resolveSpanIdx arr xs 0 (-2))
            (resolveSpanIdx arr xs 1 0))
      | SpanVal.nested xs ys =>
          Except.ok (NeighborsRet.nested (resolveSpanIdx arr xs 0 (-2))
            (resolveSpanIdx arr ys 1 0) (resolveSpanIdx arr ys 0 (-2))
            (resolveSpanIdx arr xs 1 0))
      | SpanVal.dictSpan d =>
          if d.isEmpty then
            Except.ok (NeighborsRet.flat (some "EOM") (some "EOM"))
          else
            Except.ok (NeighborsRet.nested (some "EOM") (some "EOM")
              (some "EOM") (some "EOM"))
  else Except.ok NeighborsRet.noneRet

/-- One slot of object-mode `Structure.neighbors`: the string EOM, a
component object, or Python `None` (a `component()` miss). -/
inductive ObjSlot where
  | eom
  | obj (o : CompObj)
  | pyNone
  deriving DecidableEq, Repr

/-- Object-mode result of `Structure.neighbors`. -/
inductive NeighborsObjRet where
  | flat (n5 n3 : ObjSlot)
  | nested (a b c d : ObjSlot)
  | noneRet
  deriving DecidableEq, Repr

/-- One object-mode slot: `component(componentArray[i])` under the bare
`except`; an out-of-range read, a `None` cell (`component(None)` raises
`TypeError`) and an empty-label cell (`label[0]` raises `IndexError`) all
become EOM, a dictionary miss becomes Python `None`. -/
def resolveObj (st : Structure) (arr : NpArr) (i : Int) : ObjSlot :=
  match npGet arr i with
  | Except.error _ => ObjSlot.eom
  | Except.ok none => ObjSlot.eom
  | Except.ok (some l) =>
    match st.componentLookup l with
    | Except.error _ => ObjSlot.eom
    | Except.ok none => ObjSlot.pyNone
    | Except.ok (some o) => ObjSlot.obj o

/-- Object-mode slot whose index expression first reads `span[k]`. -/
def resolveObjSpanIdx (st : Structure) (arr : NpArr) (xs : List Int) (k : Nat)
    (off : Int) : ObjSlot :=
  match pyIdx xs (k : Int) with
  | Except.ok a => resolveObj st arr (a + off)
  | Except.error _ => ObjSlot.eom

/-- `Structure.neighbors(label, object=True)`. -/
def Structure.neighborsObj (st : Structure) (label : String) :
    Except PyErr NeighborsObjRet := do
  let arr ← match st.componentArray with
    | none => Except.error PyErr.typeError
    | some a => Except.ok a
  if arr.contains (some label) then do
    let o ← st.componentLookup label
    match o with
    | none => Except.error PyErr.attributeError
    | some obj =>
      match obj.spanOf with
      | SpanVal.flat xs =>
          Except.ok (NeighborsObjRet.flat (resolveObjSpanIdx st arr xs 0 (-2))
            (resolveObjSpanIdx st arr xs 1 0))
      | SpanVal.nested xs ys =>
          Except.ok (NeighborsObjRet.nested
            (resolveObjSpanIdx st arr xs 0 (-2))
            (resolveObjSpanIdx st arr ys 1 0)
            (resolveObjSpanIdx st arr ys 0 (-2))
            (resolveObjSpanIdx st arr xs 1 0))
      | SpanVal.dictSpan d =>
          if d.isEmpty then
            Except.ok (NeighborsObjRet.flat ObjSlot.eom ObjSlot.eom)
          else
            Except.ok (NeighborsObjRet.nested ObjSlot.eom ObjSlot.eom
              ObjSlot.eom ObjSlot.eom)
  else Except.ok NeighborsObjRet.noneRet

/-- Read the component array member, raising `TypeError` when it is still
`None` (as any indexing of `None` would). -/
def Structure.getArr (st : Structure) : Except PyErr NpArr :=
  match st.componentArray with
  | none => Except.error PyErr.typeError
  | some a => Except.ok a

/-- Replace the component array. -/
def Structure.putArr (st : Structure) (arr : NpArr) : Structure :=
  { st with componentArray := some arr }

/-- Common shape of the `_add*ToComponentArray` methods: fetch the array,
perform the writes, store the result; nothing else in the structure is
touched. -/
def Structure.withArr (st : Structure) (w : NpArr → Except PyErr NpArr) :
    Except PyErr Structure := do
  let arr ← st.getArr
  let arr2 ← w arr
  Except.ok (st.putArr arr2)

/-- `Structure._addStemToComponentArray`. -/
def Structure.addStemToComponentArray (st : Structure) (s : Stem) :
    Except PyErr Structure :=
  st.withArr (fun arr => do
    let a1 ← npSetRange arr (s.sequence5pSpan.1 - 1) s.sequence5pSpan.2
      (some s.label)
    npSetRange a1 (s.sequence3pSpan.1 - 1) s.sequence3pSpan.2 (some s.label))

/-- `Structure._addHairpinToComponentArray`; the span is an index tuple so
the bound reads `span[0]`/`span[1]` can raise. -/
def Structure.addHairpinToComponentArray (st : Structure) (h : Hairpin) :
    Except PyErr Structure :=
  st.withArr (fun arr => do
    let a ← pyIdx h.span 0
    let b ← pyIdx h.span 1
    npSetRange arr (a - 1) b (some h.label))

/-- `Structure._addBulgeToComponentArray`. -/
def Structure.addBulgeToComponentArray (st : Structure) (b : Bulge) :
    Except PyErr Structure :=
  st.withArr (fun arr => npSetRange arr (b.span.1 - 1) b.span.2 (some b.label))

/-- `Structure._addEndToComponentArray`. -/
def Structure.addEndToComponentArray (st : Structure) (e : EndRec) :
    Except PyErr Structure :=
  st.withArr (fun arr => do
    let a ← pyIdx e.span 0
    let b ← pyIdx e.span 1
    npSetRange arr (a - 1) b (some e.label))

/-- `Structure._addInternalLoopToComponentArray`: both half spans, under the
parent label. -/
def Structure.addInternalLoopToComponentArray (st : Structure)
    (il : InternalLoop) : Except PyErr Structure :=
  st.withArr (fun arr => do
    let a1 ← pyIdx il.span5p 0
    let b1 ← pyIdx il.span5p 1
    let arr1 ← npSetRange arr (a1 - 1) b1 (some il.parentLabel)
    let a2 ← pyIdx il.span3p 0
    let b2 ← pyIdx il.span3p 1
    npSetRange arr1 (a2 - 1) b2 (some il.parentLabel))

/-- `Structure._addExternalLoopToComponentArray`. -/
def Structure.addExternalLoopToComponentArray (st : Structure)
    (x : ExternalLoop) : Except PyErr Structure :=
  st.withArr (fun arr => do
    let a ← pyIdx x.span 0
    let b ← pyIdx x.span 1
    npSetRange arr (a - 1) b (some x.label))

/-- `Structure._addMultiLoopToComponentArray`: each subunit span is written
under the parent label, not the subunit label. -/
def Structure.addMultiLoopToComponentArray (st : Structure) (m : Multiloop) :
    Except PyErr Structure :=
  st.withArr (fun arr =>
    m.subunitLabels.foldlM
      (fun acc su => do
        let span ← dgetOrKeyError m.spans su
        let a ← pyIdx span 0
        let b ← pyIdx span 1
        npSetRange acc (a - 1) b (some m.parentLabel))
      arr)

/-- `neighbor[k] != EOM and neighbor[k].label()[0] == B` from
`Structure._addStemBulgeNeighborBooleans`: short-circuits on the EOM string,
raises `AttributeError` on a `None` slot (`None.label()`), and indexes the
label of a component object. -/
def slotIsB (x : ObjSlot) : Except PyErr Bool :=
  match x with
  | ObjSlot.eom => Except.ok false
  | ObjSlot.pyNone => Except.error PyErr.attributeError
  | ObjSlot.obj o => do
      let c ← pyCharS o.objLabel 0
      Except.ok (c = "B")

/-- `neighbor[k].sequenceLen()`: only `Stem` and `Hairpin` define a
`sequenceLen` method — in particular `Bulge` defines `length()` instead, so
the call raises `AttributeError` on a bulge object. -/
def slotSequenceLen (x : ObjSlot) : Except PyErr Nat :=
  match x with
  | ObjSlot.obj (CompObj.stem s) => Except.ok s.sequenceLen
  | ObjSlot.obj (CompObj.hairpin h) => Except.ok h.sequenceLen
  | _ => Except.error PyErr.attributeError

/-- One `bool5p`/`bool3p` computation of
`Structure._addStemBulgeNeighborBooleans`: the `elif` arm runs only when the
first condition is false, and the length test is nested inside. -/
def stemBulgeBool (x y : ObjSlot) : Except PyErr Bool := do
  let c1 ← slotIsB x
  if c1 then do
    let n ← slotSequenceLen x
    Except.ok (n = 1)
  else do
    let c2 ← slotIsB y
    if c2 then do
      let n ← slotSequenceLen y
      Except.ok (n = 1)
    else Except.ok false

/-- The loop body of `Structure._addStemBulgeNeighborBooleans` over the
snapshot of stem dictionary keys.  A stem whose object-mode neighbors come
back as `None` cannot be tuple-unpacked (`TypeError`); a flat result makes
the subsequent indexing and attribute accesses fail (the slot is a single
object or the EOM string, not a pair), modelled as `TypeError`. -/
def stemBulgePass (st : Structure) : List String → Except PyErr Structure
  | [] => Except.ok st
  | k :: ks => do
      let s ← dgetOrKeyError st.stems k
      let ns ← st.neighborsObj s.label
      match ns with
      | NeighborsObjRet.noneRet => Except.error PyErr.typeError
      | NeighborsObjRet.flat _ _ => Except.error PyErr.typeError
      | NeighborsObjRet.nested a b c d => do
          let b5 ← stemBulgeBool a b
          let b3 ← stemBulgeBool c d
          let s2 := { s with adjacentBulges := (b5, b3) }
          stemBulgePass { st with stems := dset st.stems k s2 } ks

/-- `Structure._addStemBulgeNeighborBooleans()`. -/
def Structure.addStemBulgeNeighborBooleans (st : Structure) :
    Except PyErr Structure :=
  stemBulgePass st (dkeys st.stems)

/-- `StructureCreator.split_feature_index_string`: split a `start..stop`
token on the two dots and parse every piece as an integer; the result is the
tuple as a list (several call sites never unpack it). -/
def split_feature_index_string (s : String) : Except PyErr (List Int) :=
  (pySplit (pyStrip s) "..").mapM pyInt

/-- `StructureCreator.split_closing_pair_index_string`: strip parentheses,
split on the comma, parse integers. -/
def split_closing_pair_index_string (s : String) : Except PyErr (List Int) :=
  (pySplit (pyStripChar ')' (pyStripChar '(' s)) ",").mapM pyInt

/-- `StructureCreator.split_closing_pair_base_string`: split an `a:b` token
on the colon. -/
def split_closing_pair_base_string (s : String) : List String :=
  pySplit (pyStrip s) ":"

/-- `StructureCreator.get_feature_sequence`: keep exactly the alphabetic
characters of the token, in order, preserving case (Python `str.isalpha`,
here for the ASCII letters the format uses). -/
def get_feature_sequence (s : String) : String :=
  s.toList.foldl (fun acc c => if c.isAlpha then acc.push c else acc) ""

/-- `StructureCreator.get_loop_parent_label`: the characters before the
first dot. -/
def get_loop_parent_label (s : String) : String :=
  (s.toList.takeWhile (fun c => c ≠ '.')).asString

/-- `StructureCreator.is_stem`: `s[0] == S and s[1].isdigit()`, with Python
short-circuiting (so a one-character `S` raises `IndexError` and anything not
starting with `S` never touches `s[1]`). -/
def is_stem (s : String) : Except PyErr Bool := do
  let c0 ← pyCharS s 0
  if c0 = "S" then do
    let c1 ← pyCharS s 1
    Except.ok (pyIsDigitStr c1)
  else Except.ok false

/-- `StructureCreator._create_stem_from_file_line`. -/
def create_stem_from_file_line (line : String) : Except PyErr Stem := do
  let d := pySplit (pyStrip line) " "
  let f0 ← pyIdx d 0
  let f1 ← pyIdx d 1
  let (a5, b5) ← tup2 (← split_feature_index_string f1)
  let f2 ← pyIdx d 2
  let seq5 := get_feature_sequence f2
  let f3 ← pyIdx d 3
  let (a3, b3) ← tup2 (← split_feature_index_string f3)
  let f4 ← pyIdx d 4
  let seq3 := get_feature_sequence f4
  Except.ok (Stem.make f0 seq5 seq3 (a5, b5) (a3, b3))

/-- `StructureCreator._create_hairpin_from_file_line`.  The hairpin span
tuple is stored without unpacking; the closing-pair index and base tuples are
unpacked into two variables each. -/
def create_hairpin_from_file_line (line : String) : Except PyErr Hairpin := do
  let d := pySplit (pyStrip line) " "
  let f0 ← pyIdx d 0
  let f1 ← pyIdx d 1
  let span ← split_feature_index_string f1
  let f2 ← pyIdx d 2
  let seq := get_feature_sequence f2
  let f3 ← pyIdx d 3
  let (ci5, ci3) ← tup2 (← split_closing_pair_index_string f3)
  let f4 ← pyIdx d 4
  let (cb5, cb3) ← tup2 (split_closing_pair_base_string f4)
  Except.ok (Hairpin.make f0 seq span (cb5, cb3) (ci5, ci3))

/-- `StructureCreator._create_bulge_from_file_line`, including the trailing
closing-pair reorientation: when the 5-prime trailing index is farther from
the bulge stop than the 3-prime one, the bases are swapped and the index
tuple is built as `(trailingPair3pIndex, trailingPair5pBase)` — an index
paired with a base, exactly as in the source. -/
def create_bulge_from_file_line (line : String) : Except PyErr Bulge := do
  let d := pySplit (pyStrip line) " "
  let f0 ← pyIdx d 0
  let f1 ← pyIdx d 1
  let (bs, be) ← tup2 (← split_feature_index_string f1)
  let f2 ← pyIdx d 2
  let seq := get_feature_sequence f2
  let f3 ← pyIdx d 3
  let (p5i, p3i) ← tup2 (← split_closing_pair_index_string f3)
  let f4 ← pyIdx d 4
  let (p5b, p3b) ← tup2 (split_closing_pair_base_string f4)
  let f5 ← pyIdx d 5
  let (t5i, t3i) ← tup2 (← split_closing_pair_index_string f5)
  let f6 ← pyIdx d 6
  let (t5b, t3b) ← tup2 (split_closing_pair_base_string f6)
  let reorder := (be - t5i).natAbs > (be - t3i).natAbs
  let trailingBasePair := if reorder then (t3b, t5b) else (t5b, t3b)
  let trailingBasePairIndex :=
    if reorder then (PyV.int t3i, PyV.str t5b)
    else (PyV.int t5i, PyV.int t3i)
  Except.ok (Bulge.make f0 seq (bs, be) (p5b, p3b) (p5i, p3i)
    trailingBasePair trailingBasePairIndex)

/-- `StructureCreator._create_internal_loop_from_file_line`: consumes the
two half lines; the second closing pair is stored reversed; the loop-1
closing-pair index tuple lands in the `closingPairsSpan` parameter and the
loop-2 closing-pair index tuple lands in the `neighbor5p` parameter (the
constructor call passes ten positional arguments). -/
def create_internal_loop_from_file_line (line1 line2 : String) :
    Except PyErr InternalLoop := do
  let d1 := pySplit (pyStrip line1) " "
  let d2 := pySplit (pyStrip line2) " "
  let f10 ← pyIdx d1 0
  let parent := get_loop_parent_label f10
  let f11 ← pyIdx d1 1
  let span1 ← split_feature_index_string f11
  let f21 ← pyIdx d2 1
  let span2 ← split_feature_index_string f21
  let f12 ← pyIdx d1 2
  let seq1 := get_feature_sequence f12
  let f22 ← pyIdx d2 2
  let seq2 := get_feature_sequence f22
  let f13 ← pyIdx d1 3
  let cpi1 ← split_closing_pair_index_string f13
  let f23 ← pyIdx d2 3
  let cpi2 ← split_closing_pair_index_string f23
  let f14 ← pyIdx d1 4
  let cp1 := split_closing_pair_base_string f14
  let f24 ← pyIdx d2 4
  let cp2 := split_closing_pair_base_string f24
  let a0 ← pyIdx cp1 0
  let a1 ← pyIdx cp1 1
  let b0 ← pyIdx cp2 0
  let b1 ← pyIdx cp2 1
  Except.ok (InternalLoop.make parent "1" "2" seq1 seq2 span1 span2
    ((a0, a1), (b1, b0)) (CpsSpanV.ints cpi1) (NbArg.ints cpi2)
    (NbArg.sp ("", "")))

/-- `StructureCreator._create_external_loop_from_file_line`. -/
def create_external_loop_from_file_line (line : String) :
    Except PyErr ExternalLoop := do
  let d := pySplit (pyStrip line) " "
  let f0 ← pyIdx d 0
  let f1 ← pyIdx d 1
  let span ← split_feature_index_string f1
  let f2 ← pyIdx d 2
  let seq := get_feature_sequence f2
  let f3 ← pyIdx d 3
  let cpi5 ← split_closing_pair_index_string f3
  let f4 ← pyIdx d 4
  let (cb5a, cb5b) ← tup2 (split_closing_pair_base_string f4)
  let f5 ← pyIdx d 5
  let cpi3 ← split_closing_pair_index_string f5
  let f6 ← pyIdx d 6
  let (cb3a, cb3b) ← tup2 (split_closing_pair_base_string f6)
  Except.ok (ExternalLoop.make f0 seq span (cb5a, cb5b) cpi5 (cb3a, cb3b) cpi3)

/-- `StructureCreator._create_end_from_file_line`. -/
def create_end_from_file_line (line : String) : Except PyErr EndRec := do
  let d := pySplit (pyStrip line) " "
  let f0 ← pyIdx d 0
  let f1 ← pyIdx d 1
  let span ← split_feature_index_string f1
  let f2 ← pyIdx d 2
  let seq := get_feature_sequence f2
  Except.ok (EndRec.make f0 seq span)

/-- `StructureCreator._create_NCBP_from_file_line`: an empty sixth field is
the valid no-parent-unit value. -/
def create_NCBP_from_file_line (line : String) : Except PyErr NCBP := do
  let d := pySplit (pyStrip line) " "
  let f0 ← pyIdx d 0
  let f1 ← pyIdx d 1
  let i1 ← pyInt f1
  let f2 ← pyIdx d 2
  let f3 ← pyIdx d 3
  let i2 ← pyInt f3
  let f4 ← pyIdx d 4
  let f5 ← pyIdx d 5
  let loc := if f5 = "" then none else some f5
  Except.ok { label := f0, basePair := (f2, f4), basePairSpan := (i1, i2),
              parentUnit := loc }

/-- The loop body of
`StructureCreator._create_multiloop_from_subcomponent_list` for one subunit
line: the subunit label is the last character of the first token. -/
def multiloopAddLine (m : Multiloop) (line : String) :
    Except PyErr Multiloop := do
  let d := pySplit (pyStrip line) " "
  let f0 ← pyIdx d 0
  let su ← pyCharS f0 (-1)
  let f1 ← pyIdx d 1
  let span ← split_feature_index_string f1
  let f2 ← pyIdx d 2
  let seq := get_feature_sequence f2
  let f3 ← pyIdx d 3
  let cpi5 ← split_closing_pair_index_string f3
  let f4 ← pyIdx d 4
  let (cb5a, cb5b) ← tup2 (split_closing_pair_base_string f4)
  let f5 ← pyIdx d 5
  let cpi3 ← split_closing_pair_index_string f5
  let f6 ← pyIdx d 6
  let (cb3a, cb3b) ← tup2 (split_closing_pair_base_string f6)
  Except.ok { m with
    subunitLabels := m.subunitLabels ++ [su]
    sequences := dset m.sequences su seq
    spans := dset m.spans su span
    closingPairs := dset m.closingPairs su ((cb5a, cb5b), (cb3a, cb3b))
    closingPairsSpan := dset m.closingPairsSpan su (cpi5, cpi3) }

/-- `StructureCreator._create_multiloop_from_subcomponent_list`: fold the
subunit lines into one record; `numSubunits` is the size of the sequence
dictionary (so repeated subunit ids collapse there but not in the label
list). -/
def create_multiloop_from_subcomponent_list (parent : String)
    (subcomponents : List String) : Except PyErr Multiloop := do
  let m0 : Multiloop :=
    { parentLabel := parent, subunitLabels := [], numSubunits := 0,
      sequences := [], spans := [], closingPairs := [], closingPairsSpan := [] }
  let m ← subcomponents.foldlM multiloopAddLine m0
  Except.ok { m with numSubunits := m.sequences.length }

/-- Does the internal-loop regular expression (an `I`, one to three digits,
any character, then the character `1`) match at the head of this character
list?  Backtracking over the digit-count alternatives is an explicit
disjunction. -/
def ilPatAt (cs : List Char) : Bool :=
  match cs with
  | 'I' :: rest =>
      (match rest with
       | d1 :: _ :: '1' :: _ => d1.isDigit
       | _ => false)
      ||
      (match rest with
       | d1 :: d2 :: _ :: '1' :: _ => d1.isDigit && d2.isDigit
       | _ => false)
      ||
      (match rest with
       | d1 :: d2 :: d3 :: _ :: '1' :: _ =>
           d1.isDigit && d2.isDigit && d3.isDigit
       | _ => false)
  | _ => false

/-- The unanchored `re.search` of the internal-loop pattern over a line. -/
def reSearchIL (s : String) : Bool :=
  s.toList.tails.any ilPatAt

/-- One iteration of the feature-dispatch loop of `StructureCreator.create`:
dispatch on the current line, update the aggregate, and return it together
with the remaining lines to scan.  The multiloop arm mirrors the linear
probe `while cls.get_loop_parent_label(features[i]) == parentLabel`, which
indexes one position past the collected run and therefore raises
`IndexError` when the run extends to the end of the body; on success it
skips the whole run.  The internal-loop arm reads the following line but
advances the scan position by only one.  Unrecognised leading characters
are silently skipped. -/
def processOne (st : Structure) (line : String) (rest : List String) :
    Except PyErr (Structure × List String) := do
  let isSt ← is_stem line
  if isSt then do
    let s ← create_stem_from_file_line line
    let st1 := { st with stems := dset st.stems s.label s }
    let st2 ← st1.addStemToComponentArray s
    Except.ok (st2, rest)
  else do
    let c0 ← pyCharS line 0
    if c0 == "H" then do
      let h ← create_hairpin_from_file_line line
      let st1 := { st with hairpins := dset st.hairpins h.label h }
      let st2 ← st1.addHairpinToComponentArray h
      Except.ok (st2, rest)
    else if c0 == "B" then do
      let b ← create_bulge_from_file_line line
      let st1 := { st with bulges := dset st.bulges b.label b }
      let st2 ← st1.addBulgeToComponentArray b
      Except.ok (st2, rest)
    else if c0 == "I" && reSearchIL line then
      match rest with
      | [] => Except.error PyErr.indexError
      | l2 :: _ => do
        let il ← create_internal_loop_from_file_line line l2
        let st1 :=
          { st with internalLoops := dset st.internalLoops il.parentLabel il }
        let st2 ← st1.addInternalLoopToComponentArray il
        Except.ok (st2, rest)
    else if c0 == "M" then
      let parent := get_loop_parent_label line
      let fs := line :: rest
      let run := fs.takeWhile (fun l => get_loop_parent_label l == parent)
      let rest2 := fs.dropWhile (fun l => get_loop_parent_label l == parent)
      if rest2.isEmpty then Except.error PyErr.indexError
      else do
        let ml ← create_multiloop_from_subcomponent_list parent run
        let st1 :=
          { st with multiLoops := dset st.multiLoops ml.parentLabel ml }
        let st2 ← st1.addMultiLoopToComponentArray ml
        Except.ok (st2, rest2)
    else if c0 == "X" then do
      let x ← create_external_loop_from_file_line line
      let st1 := { st with externalLoops := dset st.externalLoops x.label x }
      let st2 ← st1.addExternalLoopToComponentArray x
      Except.ok (st2, rest)
    else if line.take 4 == "NCBP" then do
      let n ← create_NCBP_from_file_line line
      let st1 := { st with ncbp := dset st.ncbp n.label n }
      Except.ok (st1, rest)
    else if c0 == "E" then do
      let e ← create_end_from_file_line line
      let st1 := { st with ends := dset st.ends e.label e }
      let st2 ← st1.addEndToComponentArray e
      Except.ok (st2, rest)
    else
      Except.ok (st, rest)

/-- The feature-dispatch loop of `StructureCreator.create`: iterate
`processOne` over the body lines.  The fuel argument only bounds the number
of loop iterations; since every iteration consumes at least one line, fuel
equal to the list length is always enough. -/
def processFeatures (st : Structure) :
    List String → Nat → Except PyErr Structure
  | [], _ => Except.ok st
  | _ :: _, 0 => Except.error PyErr.outOfFuel
  | line :: rest, fuel + 1 => do
    let p ← processOne st line rest
    processFeatures p.1 p.2 fuel

/-- The four flags `sequenceRead` .. `varnaRead` of
`StructureCreator.create`. -/
structure ReadFlags where
  sequenceRead : Bool
  dotBracketRead : Bool
  structureArrayRead : Bool
  varnaRead : Bool
  deriving DecidableEq, Repr

/-- All flags false. -/
def ReadFlags.start : ReadFlags :=
  { sequenceRead := false, dotBracketRead := false,
    structureArrayRead := false, varnaRead := false }

/-- The header phase of `StructureCreator.create`: the `for line in f` loop.
Returns the structure together with `some remainingLines` when the loop hits
its `break` after reading the fourth mandatory line (so `features` got
assigned the rest of the file), and `none` when the loop ran off the end of
the file with `features` never assigned.  The branch that prints the
format complaint and calls `resetStructure` is kept exactly as written:
it is reachable only if one of the four flags were false immediately after
`varnaRead` is set. -/
def headerLoop (st : Structure) (fl : ReadFlags) :
    List String → Except PyErr (Structure × Option (List String))
  | [] => Except.ok (st, none)
  | line :: rest =>
    if line.take 1 == "#" then
      if line.take 6 == "#Name:" then
        headerLoop { st with name := some (pyStrip (line.drop 6)) } fl rest
      else if line.take 8 == "#Length:" then do
        let n ← pyInt (pyStripChar ',' (pyStrip (line.drop 8)))
        let arr ← npEmpty n
        headerLoop { st with length := some n, componentArray := some arr }
          fl rest
      else if line.take 12 == "#PageNumber:" then do
        let n ← pyInt (pyStrip (line.drop 12))
        headerLoop { st with pageNum := some n } fl rest
      else headerLoop st fl rest
    else if fl.sequenceRead = false then
      headerLoop { st with sequence := some (pyStrip line) }
        { fl with sequenceRead := true } rest
    else if fl.dotBracketRead = false then
      headerLoop { st with dbn := some (pyStrip line) }
        { fl with dotBracketRead := true } rest
    else if fl.structureArrayRead = false then
      headerLoop { st with structureArray := some (pyStrip line) }
        { fl with structureArrayRead := true } rest
    else if fl.varnaRead = false then
      let st2 := { st with varna := some (pyStrip line) }
      let fl2 := { fl with varnaRead := true }
      if fl2.sequenceRead && fl2.dotBracketRead && fl2.structureArrayRead
          && fl2.varnaRead then
        Except.ok (st2, some rest)
      else
        headerLoop st2.resetStructure fl2 rest
    else headerLoop st fl rest

/-- `StructureCreator.create`.  The file is its list of lines (trailing
newlines removed, file newline terminated).  The extension gate runs before
anything else; after the header phase, reaching the line
`features = features.split(...)` with `features` never assigned raises
`UnboundLocalError`; the body lines are then dispatched, and finally the
stem-bulge boolean pass runs.  `Structure._addStructureComponentNeighbors`
is never invoked anywhere in this function. -/
def create (filename : String) (fileLines : List String) :
    Except PyErr Structure :=
  if !(pyTakeRight filename 3 == ".st") then
    Except.error PyErr.structureFileNotProvided
  else do
    let (st, featuresOpt) ← headerLoop initialStructure ReadFlags.start
      fileLines
    match featuresOpt with
    | none => Except.error PyErr.unboundLocal
    | some feats => do
        let st2 ← processFeatures st feats feats.length
        let st3 ← st2.addStemBulgeNeighborBooleans
        Except.ok st3

/-! Energy engine.  Floating point arithmetic is modelled over the rational
numbers; the logarithm is an abstract function carried with the abstract
parameter tables. -/

/-- Gas constant, as in the component modules. -/
def Rconst : ℚ := 0.001987204258

/-- Reference temperature. -/
def Tconst : ℚ := 310.15

/-- Intermolecular initiation value. -/
def INTERMOLECULAR_INIT : ℚ := 4.09

/-- Stem symmetry penalty. -/
def STEM_SYMMETRY_PENALTY : ℚ := 0.43

/-- Stem AU/GU end penalty. -/
def STEM_AU_END_PENALTY : ℚ := 0.45

/-- Special C bulge bonus. -/
def SPECIAL_C_BULGE : ℚ := -0.9

/-- Hairpin UU/GA first-mismatch bonus. -/
def HAIRPIN_UU_GA_FIRST_MISMATCH_BONUS : ℚ := -0.9

/-- Hairpin GG first-mismatch bonus. -/
def HAIRPIN_GG_FIRST_MISMATCH_BONUS : ℚ := -0.8

/-- Hairpin special GU-closure bonus. -/
def HAIRPIN_SPECIAL_GU_CLOSURE : ℚ := -2.2

/-- All-C length-3 hairpin penalty. -/
def HAIRPIN_C3 : ℚ := 1.5

/-- All-C hairpin loop penalty, length coefficient. -/
def HAIRPIN_C_LOOP_A : ℚ := 0.3

/-- All-C hairpin loop penalty, constant coefficient. -/
def HAIRPIN_C_LOOP_B : ℚ := 1.6

/-- The external thermodynamic parameter tables (data files outside the
analysed core) together with the logarithm of the host float library.  A
two-level dictionary is one curried lookup returning `none` on a miss at
either level. -/
structure Tables where
  log : ℚ → ℚ
  StackingEnergies : (String × String) → (String × String) → Option ℚ
  StackTerminalMismatches : (String × String) → (String × String) → Option ℚ
  HairpinInit : ℕ → Option ℚ
  BulgeInit : ℕ → Option ℚ
  SpecialHairpins : (String × String) → String → Option ℚ

/-- Is this base pair an AU or GU pair, for the stem end penalty test? -/
def auEndPair (p : String × String) : Bool :=
  p == ("A", "U") || p == ("U", "A") || p == ("G", "U") || p == ("U", "G")

/-- The Watson-Crick stacking summation loop of `Stem.energy`: a missing
table entry returns `None` from the whole function in strict mode and is
skipped in lenient mode; the pair reads `seq[i]`/`seq[i+1]` can raise
`IndexError` (only `KeyError` is caught in the source). -/
def stemStackGo (tb : Tables) (strict : Bool) (seq : List (String × String)) :
    List ℕ → ℚ → Except PyErr (Option ℚ)
  | [], acc => Except.ok (some acc)
  | i :: rest, acc => do
      let a ← pyIdx seq (i : Int)
      let b ← pyIdx seq ((i : Int) + 1)
      match tb.StackingEnergies a b with
      | some v => stemStackGo tb strict seq rest (acc + v)
      | none =>
          if strict then Except.ok none
          else stemStackGo tb strict seq rest acc

/-- `Stem.energy(strict, init)`.  `.ok none` is the Python `return None`,
`.error` an uncaught exception. -/
def Stem.energy (tb : Tables) (strict initTerm : Bool) (s : Stem) :
    Except PyErr (Option ℚ) :=
  if s.sequenceLen = 1 then Except.ok none
  else do
    let seq := s.sequence
    let symmetry : ℚ :=
      if s.sequence5p = s.sequence3p then STEM_SYMMETRY_PENALTY else 0
    let first ← pyIdx seq 0
    let last ← pyIdx seq (-1)
    let e1 : ℚ :=
      if auEndPair first && !s.adjacentBulges.1 then STEM_AU_END_PENALTY else 0
    let e2 : ℚ :=
      if auEndPair last && !s.adjacentBulges.2 then STEM_AU_END_PENALTY else 0
    let stackOpt ← stemStackGo tb strict seq (List.range (s.sequenceLen - 1)) 0
    match stackOpt with
    | none => Except.ok none
    | some stack =>
        Except.ok (some ((if initTerm then INTERMOLECULAR_INIT else 0)
          + symmetry + (e1 + e2) + stack))

/-- The hairpin initiation term: the tabulated value when the length is a
key, otherwise the source line
`HairpinInit[9] + 1.75 * R * T * np.log(...)` — whose evaluation first looks
up `HairpinInit[9]` and then hits the name `np`, which `Hairpin.py` never
imports, so the extrapolation arm always raises (`KeyError` if 9 is not
tabulated, otherwise `NameError`). -/
def hairpinInitTerm (tb : Tables) (n : ℕ) : Except PyErr ℚ :=
  match tb.HairpinInit n with
  | some v => Except.ok v
  | none =>
    match tb.HairpinInit 9 with
    | none => Except.error PyErr.keyError
    | some _ => Except.error PyErr.nameErrorNp

/-- The tail of the long-hairpin arm of `Hairpin.energy`: the first-mismatch
bonuses, the GU-closure bonus, the all-C penalty, and the final sum. -/
def hairpinTail (h : Hairpin) (firstMismatch : String × String)
    (ini tm : ℚ) : ℚ :=
  let uuga : ℚ :=
    if firstMismatch == ("U", "U") || firstMismatch == ("G", "A") then
      HAIRPIN_UU_GA_FIRST_MISMATCH_BONUS
    else 0
  let gg : ℚ :=
    if firstMismatch == ("G", "G") then HAIRPIN_GG_FIRST_MISMATCH_BONUS else 0
  let gu : ℚ :=
    if h.closingPair == ("G", "U") && firstMismatch == ("G", "G") then
      HAIRPIN_SPECIAL_GU_CLOSURE
    else 0
  let cLoop : ℚ :=
    if h.sequence.toList.count 'C' = h.sequenceLen then
      (h.sequenceLen : ℚ) * HAIRPIN_C_LOOP_A + HAIRPIN_C_LOOP_B
    else 0
  ini + tm + uuga + gg + gu + cLoop

/-- `Hairpin.energy(strict)`. -/
def Hairpin.energy (tb : Tables) (strict : Bool) (h : Hairpin) :
    Except PyErr (Option ℚ) :=
  if h.sequenceLen < 3 then Except.ok none
  else
    match tb.SpecialHairpins h.closingPair h.sequence with
    | some v => Except.ok (some v)
    | none =>
      if h.sequenceLen = 3 then do
        let ini ← hairpinInitTerm tb h.sequenceLen
        if h.sequence.toList.count 'C' = h.sequenceLen then
          Except.ok (some (ini + HAIRPIN_C3))
        else Except.ok (some ini)
      else do
        let ini ← hairpinInitTerm tb h.sequenceLen
        let fm1 ← pyCharS h.sequence 0
        let fm2 ← pyCharS h.sequence (-1)
        match tb.StackTerminalMismatches h.closingPair (fm1, fm2) with
        | none =>
            if strict then Except.ok none
            else Except.ok (some (hairpinTail h (fm1, fm2) ini 0))
        | some tm => Except.ok (some (hairpinTail h (fm1, fm2) ini tm))

/-- `BulgeInit[n]` with a `KeyError` on a miss. -/
def bulgeInitGet (tb : Tables) (n : ℕ) : Except PyErr ℚ :=
  match tb.BulgeInit n with
  | some v => Except.ok v
  | none => Except.error PyErr.keyError

/-- The remainder of the length-1 arm of `Bulge.energy` once the stacking
term is fixed: the special-C branch counts the C bases among the bulge base
and the two 5-prime closing bases and subtracts `R * T * log(cCount)`. -/
def bulgeLen1 (tb : Tables) (b : Bulge) (basePairStack : ℚ) :
    Except PyErr (Option ℚ) :=
  if b.sequence == "C"
      && (b.closingPair5p.1 == "C" || b.closingPair3p.1 == "C") then do
    let cCount : ℕ := 1 + (if b.closingPair5p.1 == "C" then 1 else 0)
      + (if b.closingPair3p.1 == "C" then 1 else 0)
    let i1 ← bulgeInitGet tb 1
    Except.ok (some (i1 + basePairStack + SPECIAL_C_BULGE
      - (Rconst * Tconst * tb.log (cCount : ℚ))))
  else do
    let i1 ← bulgeInitGet tb 1
    Except.ok (some (i1 + basePairStack))

/-- `Bulge.energy(strict)`: length-1 bulges need the closing-pair stacking
entry (strict miss returns `None`, lenient miss contributes zero); longer
bulges use the tabulated initiation value or the length extrapolation
(`Bulge.py` does import numpy, so its `np.log` is the abstract log). -/
def Bulge.energy (tb : Tables) (strict : Bool) (b : Bulge) :
    Except PyErr (Option ℚ) :=
  if b.sequenceLen = 1 then
    match tb.StackingEnergies b.closingPair5p b.closingPair3p with
    | none => if strict then Except.ok none else bulgeLen1 tb b 0
    | some v => bulgeLen1 tb b v
  else
    match tb.BulgeInit b.sequenceLen with
    | some v => Except.ok (some v)
    | none => do
        let i6 ← bulgeInitGet tb 6
        Except.ok (some (i6 + 1.75 * Rconst * Tconst
          * tb.log ((b.sequenceLen : ℚ) / 6)))

/-- The `cCount` computed in the special-C arm of `Bulge.energy`: one for
the bulge base plus one for each C among the first bases of the two closing
pairs. -/
def bulgeCCount (b : Bulge) : ℕ :=
  1 + (if b.closingPair5p.1 == "C" then 1 else 0)
    + (if b.closingPair3p.1 == "C" then 1 else 0)

/-- Decidable equality for `Except` values, used to evaluate the embedding
on concrete inputs. -/
instance {ε α : Type} [DecidableEq ε] [DecidableEq α] :
    DecidableEq (Except ε α) := fun a b =>
  match a, b with
  | Except.ok x, Except.ok y =>
      if h : x = y then isTrue (congrArg Except.ok h)
      else isFalse (fun hc => h (Except.ok.inj hc))
  | Except.error x, Except.error y =>
      if h : x = y then isTrue (congrArg Except.error h)
      else isFalse (fun hc => h (Except.error.inj hc))
  | Except.ok _, Except.error _ => isFalse (fun hc => Except.noConfusion hc)
  | Except.error _, Except.ok _ => isFalse (fun hc => Except.noConfusion hc)

/-- The record constructors write these neighbor-field values and nothing in
`StructureCreator.create` ever overwrites them: default pairs of empty
strings for stems and hairpins, `None` for bulges, and for internal loops
the loop-2 closing-pair index tuple that the creator call passes into the
`neighbor5p` constructor slot (duplicated into both fields by
`self._neighbor3p = neighbor5p`). -/
def constructorNeighborFields (st : Structure) : Prop :=
  (∀ s ∈ dvalues st.stems, s.neighbor5p = ("", "") ∧ s.neighbor3p = ("", ""))
  ∧ (∀ h ∈ dvalues st.hairpins, h.neighbors = ("", ""))
  ∧ (∀ b ∈ dvalues st.bulges, b.neighbor5p = none ∧ b.neighbor3p = none)
  ∧ (∀ il ∈ dvalues st.internalLoops,
      ∃ xs : List Int, il.neighbor5p = NbArg.ints xs
        ∧ il.neighbor3p = NbArg.ints xs)

/-- The file of the section-8 scenario: length 10, one stem on 1..3/8..10,
one hairpin on 4..7, the four mandatory lines present. -/
def scenarioLines : List String :=
  ["#Name: scenario", "#Length: 10", "ACGUACGUAC", "(((....)))",
   "SSSHHHHSSS", "ACGUACGUAC", "S1 1..3 ACG 8..10 UAC",
   "H1 4..7 UACG (3,8) G:U"]

/-- The aggregate produced by loading the section-8 scenario file. -/
def scenarioStruct : Structure :=
  match create "scenario.st" scenarioLines with
  | Except.ok st => st
  | Except.error _ => initialStructure

/-- A file whose fourth mandatory line (the alternate notation) is missing:
the header loop ends with the local `features` never assigned. -/
def missingVarnaLines : List String :=
  ["#Name: bad", "#Length: 10", "ACGUACGUAC", "(((....)))", "SSSHHHHSSS"]

/-- A file whose body ends with a two-line multiloop run sharing parent
label `M1`: the grouping probe indexes one position past the end of the
body. -/
def multiloopAtEndLines : List String :=
  ["#Name: m", "#Length: 12", "AAAAAAAAAAAA", "............", "XXXXXXXXXXXX",
   "AAAAAAAAAAAA", "M1.1 1..2 AA (2,3) A:U (4,5) C:G",
   "M1.2 5..6 AA (6,7) A:U (8,9) C:G"]

/-- A table assignment with no tabulated entries, for witnesses. -/
def trivialTables : Tables :=
  { log := fun _ => 0
    StackingEnergies := fun _ _ => none
    StackTerminalMismatches := fun _ _ => none
    HairpinInit := fun _ => none
    BulgeInit := fun _ => none
    SpecialHairpins := fun _ _ => none }

/-- A small concrete table assignment, for witnesses. -/
def sampleTables : Tables :=
  { log := fun q => q
    StackingEnergies := fun p q =>
      if p = ("C", "G") ∧ q = ("G", "C") then some (-2) else none
    StackTerminalMismatches := fun _ _ => none
    HairpinInit := fun n => if n = 9 then some 5 else none
    BulgeInit := fun n =>
      if n = 1 then some 3 else if n = 6 then some 4 else none
    SpecialHairpins := fun _ _ => none }

/-- A length-1 stem, for the C6 witness. -/
def stemLen1 : Stem := Stem.make "S1" "A" "U" (1, 1) (5, 5)

/-- A length-1 C bulge between a CG and a GC closing pair, for the C7
witness. -/
def bulgeC1 : Bulge :=
  Bulge.make "B1" "C" (5, 5) ("C", "G") (4, 6) ("G", "C")
    (PyV.int 10, PyV.int 8)

/-- A length-4 hairpin whose length is not tabulated, for the C5 witness. -/
def hairpinLen4 : Hairpin := Hairpin.make "H1" "AAAA" [4, 7] ("C", "G") (3, 8)

/-- An aggregate with an allocated 12-cell component array, for the C8
witness. -/
def twelveNoneStruct : Structure :=
  { initialStructure with componentArray := some (List.replicate 12 none) }

/-- A three-line multiloop run sharing parent label `M1`, for the C8
witness. -/
def mlRunLines : List String :=
  ["M1.1 1..2 AA (2,3) A:U (4,5) C:G", "M1.2 5..6 AA (6,7) A:U (8,9) C:G",
   "M1.3 9..10 AA (10,11) A:U (0,1) C:G"]

/-! Theorems.  General helper lemmas first, then one theorem per claim (plus
counterexample and witness theorems where required). -/

/-- Inversion for a successful `Except` bind. -/
theorem exceptBind_ok {α β : Type} {ea : Except PyErr α}
    {f : α → Except PyErr β} {b : β} (h : ea >>= f = Except.ok b) :
    ∃ a, ea = Except.ok a ∧ f a = Except.ok b := by
  cases ea with
  | ok a => exact ⟨a, rfl, h⟩
  | error e => exact absurd h (by simp [Bind.bind, Except.bind])

/-- A failed computation never binds to a success. -/
theorem exceptBind_error {α β : Type} {e : PyErr} {f : α → Except PyErr β} :
    (Except.error e >>= f) = (Except.error e : Except PyErr β) := rfl

/-- Values of an updated dictionary: each is an old value or the new one. -/
theorem dvalues_dset_mem {α : Type} {d : Dict α} {k : String} {v x : α}
    (h : x ∈ dvalues (dset d k v)) : x ∈ dvalues d ∨ x = v := by
  unfold dset at h
  by_cases hf : (d.find? (fun p => p.1 = k)).isSome
  · simp only [hf, if_true] at h
    unfold dvalues at h ⊢
    rcases List.mem_map.mp h with ⟨p, hp, hx⟩
    rcases List.mem_map.mp hp with ⟨q, hq, hpq⟩
    by_cases hk : q.1 = k
    · right
      rw [← hx, ← hpq]
      simp [hk]
    · left
      rw [← hx, ← hpq]
      simp only [hk, if_false]
      exact List.mem_map.mpr ⟨q, hq, rfl⟩
  · simp only [hf, if_false] at h
    unfold dvalues at h ⊢
    rcases List.mem_map.mp h with ⟨p, hp, hx⟩
    rcases List.mem_append.mp hp with hmem | hmem
    · exact Or.inl (List.mem_map.mpr ⟨p, hmem, hx⟩)
    · right
      rcases List.mem_singleton.mp hmem with rfl
      exact hx.symm

/-- A successful `withArr` only replaces the component array. -/
theorem withArr_ok {st : Structure} {w : NpArr → Except PyErr NpArr}
    {st2 : Structure} (h : st.withArr w = Except.ok st2) :
    ∃ arr2, st2 = st.putArr arr2 := by
  unfold Structure.withArr at h
  obtain ⟨arr, _, h⟩ := exceptBind_ok h
  obtain ⟨arr2, _, h⟩ := exceptBind_ok h
  exact ⟨arr2, (Except.ok.inj h).symm⟩

/-- The dictionaries are untouched by `putArr`. -/
theorem putArr_dicts (st : Structure) (arr : NpArr) :
    (st.putArr arr).stems = st.stems ∧ (st.putArr arr).hairpins = st.hairpins
    ∧ (st.putArr arr).bulges = st.bulges
    ∧ (st.putArr arr).internalLoops = st.internalLoops := by
  simp [Structure.putArr]

/-- C10: an InternalLoop constructed with neighbor arguments `neighbor5p`
and `neighbor3p` stores the `neighbor5p` value into both neighbor fields
(the constructor line `self._neighbor3p = neighbor5p`), so until
`_addNeighbors` is called, `neighbors()` returns the `neighbor5p` argument
twice, for every choice of the two arguments. -/
theorem claim_C10_theorem (pLabel label5p label3p loop5p loop3p : String)
    (loop5pSpan loop3pSpan : List Int)
    (closingPairs : (String × String) × (String × String))
    (closingPairsSpan : CpsSpanV) (neighbor5p neighbor3p : NbArg) :
    (InternalLoop.make pLabel label5p label3p loop5p loop3p loop5pSpan
      loop3pSpan closingPairs closingPairsSpan neighbor5p
      neighbor3p).neighborsAcc = (neighbor5p, neighbor5p) := rfl

/-- The character fold of `get_feature_sequence` is the alphabetic filter. -/
theorem foldl_push_filter (cs : List Char) (acc : String) :
    (cs.foldl (fun a c => if c.isAlpha then a.push c else a) acc).toList
      = acc.toList ++ cs.filter (fun c => c.isAlpha) := by
  induction cs generalizing acc with
  | nil => simp
  | cons c rest ih =>
      by_cases hc : c.isAlpha
      · simp only [List.foldl, hc, if_true, List.filter, ih]
        simp [String.push, String.toList]
      · simp only [List.foldl, hc, if_false, List.filter, ih]
        simp [hc]

/-- C4 counterexample: on the input of the round-trip example the
extraction keeps the leading lowercase `a` as well, so the result is not
the `AcGuU` stated by the claim. -/
theorem claim_C4_counterexample :
    get_feature_sequence "aAc-GuU" ≠ "AcGuU" := by decide

/-- C4 (amended): the sequence-extraction primitive maps a combined token to
its alphabetic-only, case-preserved substring (the in-order filter of the
alphabetic characters); on the input `aAc-GuU` it returns `aAcGuU` (seven
characters of which only the dash is dropped), not `AcGuU`. -/
theorem claim_C4_theorem :
    (∀ s : String, (get_feature_sequence s).toList
      = s.toList.filter (fun c => c.isAlpha))
    ∧ get_feature_sequence "aAc-GuU" = "aAcGuU" := by
  constructor
  · intro s
    unfold get_feature_sequence
    simpa using foldl_push_filter s.toList ""
  · decide

/-- C5: a hairpin of length at least 3 that misses both the special-case
table and the initiation table does not get the extrapolated initiation
term: `Hairpin.py` never imports numpy, so the arm
`HairpinInit[9] + 1.75 * R * T * np.log(...)` raises (a `KeyError` when 9 is
itself untabulated, otherwise the `NameError` on the unresolved name `np`),
in strict and lenient mode alike — `energy()` fails instead of returning the
formula value claimed by the specification. -/
theorem claim_C5_theorem (tb : Tables) (strict : Bool) (h : Hairpin)
    (h3 : 3 ≤ h.sequenceLen)
    (hsp : tb.SpecialHairpins h.closingPair h.sequence = none)
    (hin : tb.HairpinInit h.sequenceLen = none) :
    Hairpin.energy tb strict h =
      Except.error (match tb.HairpinInit 9 with
        | none => PyErr.keyError
        | some _ => PyErr.nameErrorNp) := by
  have hlt : ¬ (h.sequenceLen < 3) := by omega
  have hterm : hairpinInitTerm tb h.sequenceLen =
      Except.error (match tb.HairpinInit 9 with
        | none => PyErr.keyError
        | some _ => PyErr.nameErrorNp) := by
    unfold hairpinInitTerm
    rw [hin]
    cases tb.HairpinInit 9 <;> rfl
  unfold Hairpin.energy
  rw [if_neg hlt, hsp]
  by_cases h4 : h.sequenceLen = 3
  · rw [if_pos h4, hterm]
    simp [Bind.bind, Except.bind]
  · rw [if_neg h4, hterm]
    simp [Bind.bind, Except.bind]

/-- C5 witness: the length-4 all-A hairpin under the sample tables (where
only length 9 is tabulated) fails with the `NameError`. -/
theorem claim_C5_witness :
    Hairpin.energy sampleTables true hairpinLen4 =
      Except.error PyErr.nameErrorNp :=
  claim_C5_theorem sampleTables true hairpinLen4 (by decide) rfl rfl

/-- C6: a stem of length at most 1 never yields an energy value, in strict
and lenient mode and with or without the intermolecular initiation term: at
length exactly 1 `energy()` returns `None`, and at length 0 the stored pair
list is empty so the end-penalty read `seq[0]` raises `IndexError`.  The two
side conditions tie the derived fields to the constructor computation. -/
theorem claim_C6_theorem (tb : Tables) (strict initTerm : Bool) (s : Stem)
    (hseq : s.sequence = zipPairs s.sequence5p s.sequence3p)
    (hlen : s.sequenceLen = (s.sequence5p.length + s.sequence3p.length) / 2)
    (hle : s.sequenceLen ≤ 1) (q : ℚ) :
    Stem.energy tb strict initTerm s ≠ Except.ok (some q) := by
  by_cases h1 : s.sequenceLen = 1
  · unfold Stem.energy
    simp [h1]
  · have h0 : s.sequenceLen = 0 := by omega
    have hd : (s.sequence5p.length + s.sequence3p.length) / 2 = 0 := by
      omega
    have hab : s.sequence5p.length + s.sequence3p.length < 2 :=
      (Nat.div_eq_zero_iff (by norm_num)).mp hd
    have hnil : s.sequence = [] := by
      rw [hseq]
      unfold zipPairs
      apply List.eq_nil_of_length_eq_zero
      have hmin : min s.sequence5p.toList.length
          s.sequence3p.toList.reverse.length = 0 := by
        rw [List.length_reverse]
        have e5 : s.sequence5p.toList.length = s.sequence5p.length := rfl
        have e3 : s.sequence3p.toList.length = s.sequence3p.length := rfl
        omega
      rw [List.length_map, List.length_zip, hmin]
    unfold Stem.energy
    rw [if_neg h1]
    simp [hnil, pyIdx, Bind.bind, Except.bind]

/-- C6 witness: the one-pair stem fails under the trivial tables in strict
mode without the initiation term (value 0 as the impossible energy). -/
theorem claim_C6_witness :
    Stem.energy trivialTables true false stemLen1 ≠ Except.ok (some 0) :=
  claim_C6_theorem trivialTables true false stemLen1 rfl rfl (by decide) 0

/-- C7: for a length-1 bulge whose base is C with a C among the first bases
of the two closing pairs, `energy()` returns the length-1 initiation value
plus the closing-pair stacking term (zero in lenient mode when untabulated)
plus the special-C bonus adjusted by `-R * T * log(cCount)`, where `cCount`
counts the C bases among the bulge base and the two flanking closing-pair
bases and is 2 or 3. -/
theorem claim_C7_theorem (tb : Tables) (strict : Bool) (b : Bulge)
    (stk i1 : ℚ) (hseq : b.sequence = "C") (hlen : b.sequenceLen = 1)
    (hC : b.closingPair5p.1 = "C" ∨ b.closingPair3p.1 = "C")
    (hstk : tb.StackingEnergies b.closingPair5p b.closingPair3p = some stk
      ∨ (strict = false
          ∧ tb.StackingEnergies b.closingPair5p b.closingPair3p = none
          ∧ stk = 0))
    (hinit : tb.BulgeInit 1 = some i1) :
    Bulge.energy tb strict b = Except.ok (some (i1 + stk + SPECIAL_C_BULGE
      - (Rconst * Tconst * tb.log (bulgeCCount b : ℚ))))
    ∧ (bulgeCCount b = 2 ∨ bulgeCCount b = 3) := by
  have hcond : (b.sequence == "C"
      && (b.closingPair5p.1 == "C" || b.closingPair3p.1 == "C")) = true := by
    rcases hC with h | h <;> simp [hseq, h]
  constructor
  · have hbody : bulgeLen1 tb b stk = Except.ok (some (i1 + stk
        + SPECIAL_C_BULGE
        - (Rconst * Tconst * tb.log (bulgeCCount b : ℚ)))) := by
      unfold bulgeLen1 bulgeCCount
      rw [if_pos hcond]
      simp [bulgeInitGet, hinit, Bind.bind, Except.bind]
    unfold Bulge.energy
    rw [if_pos hlen]
    rcases hstk with h | ⟨hs, hn, hz⟩
    · rw [h]
      exact hbody
    · subst hz
      rw [hn, hs]
      simp only [Bool.false_eq_true, if_false]
      exact hbody
  · unfold bulgeCCount
    rcases hC with h | h <;> by_cases h5 : b.closingPair5p.1 = "C" <;>
      by_cases h3 : b.closingPair3p.1 = "C" <;>
      simp_all

/-- C7 witness: the concrete length-1 C bulge with closing pairs CG/GC under
the sample tables; its `cCount` is 2. -/
theorem claim_C7_witness :
    Bulge.energy sampleTables true bulgeC1 = Except.ok (some (3 + (-2)
      + SPECIAL_C_BULGE
      - (Rconst * Tconst * sampleTables.log (bulgeCCount bulgeC1 : ℚ))))
    ∧ (bulgeCCount bulgeC1 = 2 ∨ bulgeCCount bulgeC1 = 3) :=
  claim_C7_theorem sampleTables true bulgeC1 (-2) 3 rfl rfl
    (Or.inl rfl) (Or.inl (by decide)) (by decide)

/-- C9: when the trailing closing pair of a bulge line is reordered (the
5-prime trailing index farther from the bulge stop than the 3-prime one),
the constructed record stores the correctly swapped trailing bases
`(trailing3pBase, trailing5pBase)` but the mixed tuple
`(trailingPair3pIndex, trailingPair5pBase)` — an index paired with a base
character — as the trailing closing-pair span, exactly as the source line
`trailingBasePairIndex = (trailingPair3pIndex, trailingPair5pBase)` does. -/
theorem claim_C9_theorem (line : String) (d : List String)
    (f0 f1 f2 f3 f4 f5 f6 : String) (bs be p5i p3i t5i t3i : Int)
    (p5b p3b t5b t3b : String)
    (hd : pySplit (pyStrip line) " " = d)
    (h0 : pyIdx d 0 = Except.ok f0)
    (h1 : pyIdx d 1 = Except.ok f1)
    (hf1 : split_feature_index_string f1 = Except.ok [bs, be])
    (h2 : pyIdx d 2 = Except.ok f2)
    (h3 : pyIdx d 3 = Except.ok f3)
    (hf3 : split_closing_pair_index_string f3 = Except.ok [p5i, p3i])
    (h4 : pyIdx d 4 = Except.ok f4)
    (hf4 : split_closing_pair_base_string f4 = [p5b, p3b])
    (h5 : pyIdx d 5 = Except.ok f5)
    (hf5 : split_closing_pair_index_string f5 = Except.ok [t5i, t3i])
    (h6 : pyIdx d 6 = Except.ok f6)
    (hf6 : split_closing_pair_base_string f6 = [t5b, t3b])
    (hre : (be - t5i).natAbs > (be - t3i).natAbs) :
    create_bulge_from_file_line line = Except.ok (Bulge.make f0
      (get_feature_sequence f2) (bs, be) (p5b, p3b) (p5i, p3i)
      (t3b, t5b) (PyV.int t3i, PyV.str t5b))
    ∧ (Bulge.make f0 (get_feature_sequence f2) (bs, be) (p5b, p3b)
        (p5i, p3i) (t3b, t5b)
        (PyV.int t3i, PyV.str t5b)).closingPair3p = (t3b, t5b)
    ∧ (Bulge.make f0 (get_feature_sequence f2) (bs, be) (p5b, p3b)
        (p5i, p3i) (t3b, t5b)
        (PyV.int t3i, PyV.str t5b)).closingPair3pSpan
      = (PyV.int t3i, PyV.str t5b) := by
  refine ⟨?_, rfl, rfl⟩
  unfold create_bulge_from_file_line
  rw [hd]
  simp only [h0, h1, hf1, h2, h3, hf3, h4, hf4, h5, hf5, h6, hf6, tup2,
    Bind.bind, Except.bind, hre, if_true, gt_iff_lt]

/-- C9 witness: the concrete reordered bulge line. -/
theorem claim_C9_witness :
    create_bulge_from_file_line "B1 5..5 C (4,6) G:C (10,8) A:U"
      = Except.ok (Bulge.make "B1" "C" (5, 5) ("G", "C") (4, 6) ("U", "A")
        (PyV.int 8, PyV.str "A"))
    ∧ (Bulge.make "B1" "C" (5, 5) ("G", "C") (4, 6) ("U", "A")
        (PyV.int 8, PyV.str "A")).closingPair3p = ("U", "A")
    ∧ (Bulge.make "B1" "C" (5, 5) ("G", "C") (4, 6) ("U", "A")
        (PyV.int 8, PyV.str "A")).closingPair3pSpan
      = (PyV.int 8, PyV.str "A") := by
  have h := claim_C9_theorem "B1 5..5 C (4,6) G:C (10,8) A:U"
    ["B1", "5..5", "C", "(4,6)", "G:C", "(10,8)", "A:U"]
    "B1" "5..5" "C" "(4,6)" "G:C" "(10,8)" "A:U" 5 5 4 6 10 8 "G" "C" "A" "U"
    (by decide) (by decide) (by decide) (by decide) (by decide) (by decide)
    (by decide) (by decide) (by decide) (by decide) (by decide) (by decide)
    (by decide) (by decide)
  exact h

/-- C1 counterexample: in the section-8 scenario the load completes, but
`neighbors(stem)` is neither the flat pair `(EOM, EOM)` nor an all-EOM
nested tuple: the 5-prime lookup index `1 - 2 = -1` wraps (numpy negative
indexing) to the last component-array cell and resolves to the component
label `S1`, and the result is the cross-paired nested tuple
`((S1, EOM), (H1, H1))`. -/
theorem claim_C1_counterexample :
    create "scenario.st" scenarioLines = Except.ok scenarioStruct
    ∧ Structure.neighbors scenarioStruct "S1"
      = Except.ok (NeighborsRet.nested (some "S1") (some "EOM") (some "H1")
          (some "H1"))
    ∧ Structure.neighbors scenarioStruct "S1"
      ≠ Except.ok (NeighborsRet.flat (some "EOM") (some "EOM"))
    ∧ Structure.neighbors scenarioStruct "S1"
      ≠ Except.ok (NeighborsRet.nested (some "EOM") (some "EOM") (some "EOM")
          (some "EOM")) :=
  ⟨by decide, by decide, by decide, by decide⟩

/-- C1 (amended): a neighbor lookup index at or beyond `length`, or below
`-length`, resolves to the EOM sentinel (the `IndexError` is caught); but an
index in `[-length, -1]` — in particular `start - 2 = -1` for a span
starting at position 1 — wraps around (numpy negative indexing) and
resolves to the component label stored at `length + index`, not to EOM.  In
the section-8 scenario `neighbors(hairpin) = (S1, S1)` while
`neighbors(stem)` is the nested tuple `((S1, EOM), (H1, H1))`, not
`(EOM, EOM)`. -/
theorem claim_C1_theorem :
    (∀ (arr : NpArr) (i : Int), (arr.length : Int) ≤ i →
      resolveLabel arr i = some "EOM")
    ∧ (∀ (arr : NpArr) (i : Int), i < -(arr.length : Int) →
      resolveLabel arr i = some "EOM")
    ∧ (∀ (arr : NpArr) (j : Fin arr.length),
      resolveLabel arr ((j : Int) - (arr.length : Int)) = arr.get j)
    ∧ Structure.neighbors scenarioStruct "H1"
      = Except.ok (NeighborsRet.flat (some "S1") (some "S1"))
    ∧ Structure.neighbors scenarioStruct "S1"
      = Except.ok (NeighborsRet.nested (some "S1") (some "EOM") (some "H1")
          (some "H1")) := by
  refine ⟨?_, ?_, ?_, by decide, by decide⟩
  · intro arr i hi
    have hneg : ¬ (i < 0) := by omega
    have hnone : arr[i.toNat]? = none := List.getElem?_eq_none (by omega)
    unfold resolveLabel npGet pyIdx
    simp [hneg, hnone]
  · intro arr i hi
    have hneg : i < 0 := by omega
    have hlt : (arr.length : Int) + i < 0 := by omega
    unfold resolveLabel npGet pyIdx
    simp [hneg, hlt]
  · intro arr j
    have hj : (0 : Int) ≤ (j : Int) := Int.ofNat_nonneg _
    have hjl : (j : Int) < (arr.length : Int) := by exact_mod_cast j.isLt
    have hneg : (j : Int) - (arr.length : Int) < 0 := by omega
    have hge : ¬ ((arr.length : Int)
        + ((j : Int) - (arr.length : Int)) < 0) := by omega
    have htn : ((arr.length : Int)
        + ((j : Int) - (arr.length : Int))).toNat = (j : ℕ) := by omega
    unfold resolveLabel npGet pyIdx
    simp only [hneg, if_true, hge, if_false, htn, ite_true, ite_false]
    rw [List.getElem?_eq_getElem j.isLt]
    rfl

/-- C1 witness: the general lookup facts applied to a one-cell array holding
the label `X1`: index 1 and index −2 are out of range and give EOM, while
index `0 − 1 = −1` wraps and yields the stored label. -/
theorem claim_C1_witness :
    resolveLabel [some "X1"] 1 = some "EOM"
    ∧ resolveLabel [some "X1"] (-2) = some "EOM"
    ∧ resolveLabel [some "X1"] ((0 : Int) - 1) = some "X1" :=
  ⟨claim_C1_theorem.1 [some "X1"] 1 (by decide),
   claim_C1_theorem.2.1 [some "X1"] (-2) (by decide),
   claim_C1_theorem.2.2.1 [some "X1"] ⟨0, by decide⟩⟩

/-- C3: a file missing one of the four mandatory lines (here the alternate
notation) makes the load fail with an `UnboundLocalError` on the line
`features = features.split(...)` — the aggregate is not reset, because the
validation branch of `create` that would print the complaint and call
`resetStructure` is unreachable: it runs right after `varnaRead` is set to
True, at which point all four flags are necessarily True (second conjunct),
so the loop always breaks successfully instead.  No aggregate is returned to
the caller on this path. -/
theorem claim_C3_theorem :
    create "bad.st" missingVarnaLines = Except.error PyErr.unboundLocal
    ∧ (∀ (st : Structure) (fl : ReadFlags) (line : String)
        (rest : List String), fl.sequenceRead = true →
        fl.dotBracketRead = true → fl.structureArrayRead = true →
        fl.varnaRead = false → (line.take 1 == "#") = false →
        headerLoop st fl (line :: rest)
          = Except.ok ({ st with varna := some (pyStrip line) }, some rest))
    := by
  constructor
  · decide
  · intro st fl line rest h1 h2 h3 h4 h5
    unfold headerLoop
    simp [h1, h2, h3, h4, h5]

/-- C3 witness: with the first three flags set, consuming the fourth
mandatory line always takes the break arm, never the reset arm. -/
theorem claim_C3_witness :
    headerLoop initialStructure
      { sequenceRead := true, dotBracketRead := true,
        structureArrayRead := true, varnaRead := false } ["VARNA"]
      = Except.ok ({ initialStructure with varna := some "VARNA" }, some []) :=
  claim_C3_theorem.2 initialStructure
    { sequenceRead := true, dotBracketRead := true,
      structureArrayRead := true, varnaRead := false } "VARNA" [] rfl rfl rfl
    rfl (by decide)

/-- Splitting a list at a maximal run of the predicate. -/
theorem splitRun (p : String → Bool) (run : List String) (r0 : String)
    (rest2 : List String) (hall : ∀ l ∈ run, p l = true) (hr : p r0 = false) :
    (run ++ r0 :: rest2).takeWhile p = run
    ∧ (run ++ r0 :: rest2).dropWhile p = r0 :: rest2 := by
  induction run with
  | nil => simp [List.takeWhile, List.dropWhile, hr]
  | cons a t ih =>
      have ha : p a = true := hall a (by simp)
      have ht : ∀ l ∈ t, p l = true := fun l hl => hall l (by simp [hl])
      have := ih ht
      simp [List.takeWhile, List.dropWhile, ha, this.1, this.2]

/-- Each successfully parsed multiloop line appends exactly one subunit
label. -/
theorem multiloopAddLine_len {m0 m1 : Multiloop} {line : String}
    (h : multiloopAddLine m0 line = Except.ok m1) :
    m1.subunitLabels.length = m0.subunitLabels.length + 1 := by
  unfold multiloopAddLine at h
  obtain ⟨f0, _, h⟩ := exceptBind_ok h
  obtain ⟨su, _, h⟩ := exceptBind_ok h
  obtain ⟨f1, _, h⟩ := exceptBind_ok h
  obtain ⟨span, _, h⟩ := exceptBind_ok h
  obtain ⟨f2, _, h⟩ := exceptBind_ok h
  obtain ⟨f3, _, h⟩ := exceptBind_ok h
  obtain ⟨cpi5, _, h⟩ := exceptBind_ok h
  obtain ⟨f4, _, h⟩ := exceptBind_ok h
  obtain ⟨cb5, _, h⟩ := exceptBind_ok h
  obtain ⟨cb5a, cb5b⟩ := cb5
  obtain ⟨f5, _, h⟩ := exceptBind_ok h
  obtain ⟨cpi3, _, h⟩ := exceptBind_ok h
  obtain ⟨f6, _, h⟩ := exceptBind_ok h
  obtain ⟨cb3, _, h⟩ := exceptBind_ok h
  obtain ⟨cb3a, cb3b⟩ := cb3
  rw [← Except.ok.inj h]
  simp

/-- The subunit-label list of a built multiloop has one entry per input
line. -/
theorem multiloop_subunit_count : ∀ (subs : List String) (m0 m : Multiloop),
    subs.foldlM multiloopAddLine m0 = Except.ok m →
    m.subunitLabels.length = m0.subunitLabels.length + subs.length := by
  intro subs
  induction subs with
  | nil =>
      intro m0 m h
      simp only [List.foldlM] at h
      rw [← Except.ok.inj h]
      simp
  | cons a t ih =>
      intro m0 m h
      simp only [List.foldlM] at h
      obtain ⟨m1, h1, h2⟩ := exceptBind_ok h
      have hl := multiloopAddLine_len h1
      have := ih m1 m h2
      simp only [List.length_cons]
      omega

/-- One unfolding step of the dispatch loop. -/
theorem processFeatures_cons (st : Structure) (line : String)
    (rest : List String) (fuel : Nat) :
    processFeatures st (line :: rest) (fuel + 1)
      = (processOne st line rest >>= fun p => processFeatures p.1 p.2 fuel) :=
  rfl

/-- C8 counterexample: a body whose final lines are a multiloop run: the
grouping probe `while get_loop_parent_label(features[i]) == parentLabel`
indexes one position past the end of the body, so the load fails with an
`IndexError` and no MultiLoop record is produced at all. -/
theorem claim_C8_counterexample :
    create "m.st" multiloopAtEndLines = Except.error PyErr.indexError := by
  decide

/-- C8 (amended): when a contiguous maximal run of `k >= 1` multiloop lines
sharing one parent label is followed by at least one more body line (with a
different parent label), the dispatch loop consumes the whole run in one
grouped step: it builds one MultiLoop record whose subunit-label list has
exactly `k` entries, stores it under the parent label, and continues
scanning at the first line after the run.  When instead the run reaches the
end of the body, the grouping probe indexes past the end and the whole load
fails (see the counterexample). -/
theorem claim_C8_theorem (st : Structure) (parent l0 r0 : String)
    (run2 rest2 : List String) (fuel : Nat)
    (hm : pyCharS l0 0 = Except.ok "M")
    (hall : ∀ l ∈ l0 :: run2, get_loop_parent_label l = parent)
    (hr : get_loop_parent_label r0 ≠ parent) :
    processFeatures st ((l0 :: run2) ++ (r0 :: rest2)) (fuel + 1)
      = (do
          let ml ← create_multiloop_from_subcomponent_list parent (l0 :: run2)
          let st1 :=
            { st with multiLoops := dset st.multiLoops ml.parentLabel ml }
          let st2 ← st1.addMultiLoopToComponentArray ml
          processFeatures st2 (r0 :: rest2) fuel)
    ∧ (∀ ml, create_multiloop_from_subcomponent_list parent (l0 :: run2)
        = Except.ok ml → ml.subunitLabels.length = (l0 :: run2).length) := by
  constructor
  · have hstem : is_stem l0 = Except.ok false := by
      unfold is_stem
      rw [hm]
      rfl
    have hl0 : get_loop_parent_label l0 = parent := hall l0 (by simp)
    have hsplit := splitRun (fun l => get_loop_parent_label l == parent)
      (l0 :: run2) r0 rest2
      (fun l hl => beq_iff_eq.mpr (hall l hl)) (by simp [hr])
    have htake : (l0 :: (run2 ++ r0 :: rest2)).takeWhile
        (fun l => get_loop_parent_label l == parent) = l0 :: run2 := by
      rw [← List.cons_append]
      exact hsplit.1
    have hdrop : (l0 :: (run2 ++ r0 :: rest2)).dropWhile
        (fun l => get_loop_parent_label l == parent) = r0 :: rest2 := by
      rw [← List.cons_append]
      exact hsplit.2
    have hone : processOne st l0 (run2 ++ r0 :: rest2)
        = (do
            let ml ←
              create_multiloop_from_subcomponent_list parent (l0 :: run2)
            let st1 :=
              { st with multiLoops := dset st.multiLoops ml.parentLabel ml }
            let st2 ← st1.addMultiLoopToComponentArray ml
            Except.ok (st2, r0 :: rest2)) := by
      unfold processOne
      rw [hstem]
      simp only [Bind.bind, Except.bind]
      simp only [Bool.false_eq_true, if_false]
      rw [hm]
      simp only [Bool.false_eq_true, if_false,
        show (("M" : String) == "H") = false from by decide,
        show (("M" : String) == "B") = false from by decide,
        show (("M" : String) == "I") = false from by decide,
        show (("M" : String) == "M") = true from by decide,
        Bool.false_and, if_true]
      rw [hl0, htake, hdrop]
      simp only [List.isEmpty_cons, Bool.false_eq_true, if_false]
    rw [List.cons_append, processFeatures_cons, hone]
    cases hc : create_multiloop_from_subcomponent_list parent (l0 :: run2)
      with
    | error e => simp [Bind.bind, Except.bind]
    | ok ml =>
        cases ha : Structure.addMultiLoopToComponentArray
            { st with multiLoops := dset st.multiLoops ml.parentLabel ml }
            ml with
        | error e => simp [Bind.bind, Except.bind, ha]
        | ok st2 => simp [Bind.bind, Except.bind, ha]
  · intro ml hml
    unfold create_multiloop_from_subcomponent_list at hml
    obtain ⟨m1, h1, h2⟩ := exceptBind_ok hml
    have := multiloop_subunit_count (l0 :: run2) _ m1 h1
    rw [← Except.ok.inj h2]
    simpa using this

/-- C8 witness: the grouped step applied to a concrete three-line `M1` run
followed by an end line, over an aggregate with a 12-cell component array. -/
theorem claim_C8_witness :
    processFeatures twelveNoneStruct (mlRunLines ++ ["E1 1..1 A"]) 2
      = (do
          let ml ← create_multiloop_from_subcomponent_list "M1" mlRunLines
          let st1 := { twelveNoneStruct with
            multiLoops := dset twelveNoneStruct.multiLoops ml.parentLabel ml }
          let st2 ← st1.addMultiLoopToComponentArray ml
          processFeatures st2 ["E1 1..1 A"] 1) :=
  (claim_C8_theorem twelveNoneStruct "M1" "M1.1 1..2 AA (2,3) A:U (4,5) C:G"
    "E1 1..1 A"
    ["M1.2 5..6 AA (6,7) A:U (8,9) C:G",
     "M1.3 9..10 AA (10,11) A:U (0,1) C:G"] [] 1 (by decide) (by decide)
    (by decide)).1

/-- A successful dictionary lookup yields a stored value. -/
theorem dget_mem {α : Type} {d : Dict α} {k : String} {v : α}
    (h : dget d k = some v) : v ∈ dvalues d := by
  unfold dget at h
  cases hf : d.find? (fun p => p.1 = k) with
  | none => rw [hf] at h; simp at h
  | some p =>
      rw [hf] at h
      have hm := List.mem_of_find?_eq_some hf
      have hv : p.2 = v := Option.some.inj h
      rw [← hv]
      exact List.mem_map.mpr ⟨p, hm, rfl⟩

/-- The empty aggregate trivially satisfies the neighbor-field record. -/
theorem cnf_initial : constructorNeighborFields initialStructure := by
  refine ⟨?_, ?_, ?_, ?_⟩ <;> intro x hx <;>
    simp [initialStructure, dvalues] at hx

/-- Updating the stem dictionary with a default-neighbor stem preserves the
neighbor-field record. -/
theorem cnf_stems {st : Structure} {k : String} {s : Stem}
    (hst : constructorNeighborFields st) (h5 : s.neighbor5p = ("", ""))
    (h3 : s.neighbor3p = ("", "")) :
    constructorNeighborFields { st with stems := dset st.stems k s } := by
  obtain ⟨hs, hh, hb, hi⟩ := hst
  refine ⟨?_, hh, hb, hi⟩
  intro x hx
  rcases dvalues_dset_mem hx with hmem | rfl
  · exact hs x hmem
  · exact ⟨h5, h3⟩

/-- Updating the hairpin dictionary with a default-neighbor hairpin. -/
theorem cnf_hairpins {st : Structure} {k : String} {hp : Hairpin}
    (hst : constructorNeighborFields st) (hn : hp.neighbors = ("", "")) :
    constructorNeighborFields { st with hairpins := dset st.hairpins k hp }
    := by
  obtain ⟨hs, hh, hb, hi⟩ := hst
  refine ⟨hs, ?_, hb, hi⟩
  intro x hx
  rcases dvalues_dset_mem hx with hmem | rfl
  · exact hh x hmem
  · exact hn

/-- Updating the bulge dictionary with a default-neighbor bulge. -/
theorem cnf_bulges {st : Structure} {k : String} {b : Bulge}
    (hst : constructorNeighborFields st) (h5 : b.neighbor5p = none)
    (h3 : b.neighbor3p = none) :
    constructorNeighborFields { st with bulges := dset st.bulges k b } := by
  obtain ⟨hs, hh, hb, hi⟩ := hst
  refine ⟨hs, hh, ?_, hi⟩
  intro x hx
  rcases dvalues_dset_mem hx with hmem | rfl
  · exact hb x hmem
  · exact ⟨h5, h3⟩

/-- Updating the internal-loop dictionary with a constructor-built loop. -/
theorem cnf_ils {st : Structure} {k : String} {il : InternalLoop}
    (hst : constructorNeighborFields st)
    (hn : ∃ xs : List Int, il.neighbor5p = NbArg.ints xs
      ∧ il.neighbor3p = NbArg.ints xs) :
    constructorNeighborFields
      { st with internalLoops := dset st.internalLoops k il } := by
  obtain ⟨hs, hh, hb, hi⟩ := hst
  refine ⟨hs, hh, hb, ?_⟩
  intro x hx
  rcases dvalues_dset_mem hx with hmem | rfl
  · exact hi x hmem
  · exact hn

/-- A parsed stem record carries the default neighbor fields. -/
theorem create_stem_defaults {line : String} {s : Stem}
    (h : create_stem_from_file_line line = Except.ok s) :
    s.neighbor5p = ("", "") ∧ s.neighbor3p = ("", "") := by
  unfold create_stem_from_file_line at h
  obtain ⟨f0, _, h⟩ := exceptBind_ok h
  obtain ⟨f1, _, h⟩ := exceptBind_ok h
  obtain ⟨xs, _, h⟩ := exceptBind_ok h
  obtain ⟨p5, _, h⟩ := exceptBind_ok h
  obtain ⟨a5, b5⟩ := p5
  obtain ⟨f2, _, h⟩ := exceptBind_ok h
  obtain ⟨f3, _, h⟩ := exceptBind_ok h
  obtain ⟨ys, _, h⟩ := exceptBind_ok h
  obtain ⟨p3, _, h⟩ := exceptBind_ok h
  obtain ⟨a3, b3⟩ := p3
  obtain ⟨f4, _, h⟩ := exceptBind_ok h
  rw [← Except.ok.inj h]
  exact ⟨rfl, rfl⟩

/-- A parsed hairpin record carries the default neighbor pair. -/
theorem create_hairpin_defaults {line : String} {hp : Hairpin}
    (h : create_hairpin_from_file_line line = Except.ok hp) :
    hp.neighbors = ("", "") := by
  unfold create_hairpin_from_file_line at h
  obtain ⟨f0, _, h⟩ := exceptBind_ok h
  obtain ⟨f1, _, h⟩ := exceptBind_ok h
  obtain ⟨span, _, h⟩ := exceptBind_ok h
  obtain ⟨f2, _, h⟩ := exceptBind_ok h
  obtain ⟨f3, _, h⟩ := exceptBind_ok h
  obtain ⟨xs, _, h⟩ := exceptBind_ok h
  obtain ⟨pci, _, h⟩ := exceptBind_ok h
  obtain ⟨ci5, ci3⟩ := pci
  obtain ⟨f4, _, h⟩ := exceptBind_ok h
  obtain ⟨pcb, _, h⟩ := exceptBind_ok h
  obtain ⟨cb5, cb3⟩ := pcb
  rw [← Except.ok.inj h]
  rfl

/-- A parsed bulge record carries the default `None` neighbor fields. -/
theorem create_bulge_defaults {line : String} {b : Bulge}
    (h : create_bulge_from_file_line line = Except.ok b) :
    b.neighbor5p = none ∧ b.neighbor3p = none := by
  unfold create_bulge_from_file_line at h
  obtain ⟨f0, _, h⟩ := exceptBind_ok h
  obtain ⟨f1, _, h⟩ := exceptBind_ok h
  obtain ⟨xs, _, h⟩ := exceptBind_ok h
  obtain ⟨pbs, _, h⟩ := exceptBind_ok h
  obtain ⟨bs, be⟩ := pbs
  obtain ⟨f2, _, h⟩ := exceptBind_ok h
  obtain ⟨f3, _, h⟩ := exceptBind_ok h
  obtain ⟨ys, _, h⟩ := exceptBind_ok h
  obtain ⟨pp, _, h⟩ := exceptBind_ok h
  obtain ⟨p5i, p3i⟩ := pp
  obtain ⟨f4, _, h⟩ := exceptBind_ok h
  obtain ⟨pb, _, h⟩ := exceptBind_ok h
  obtain ⟨p5b, p3b⟩ := pb
  obtain ⟨f5, _, h⟩ := exceptBind_ok h
  obtain ⟨zs, _, h⟩ := exceptBind_ok h
  obtain ⟨pt, _, h⟩ := exceptBind_ok h
  obtain ⟨t5i, t3i⟩ := pt
  obtain ⟨f6, _, h⟩ := exceptBind_ok h
  obtain ⟨ptb, _, h⟩ := exceptBind_ok h
  obtain ⟨t5b, t3b⟩ := ptb
  rw [← Except.ok.inj h]
  exact ⟨rfl, rfl⟩

/-- A parsed internal-loop record holds the loop-2 closing-pair index tuple
in both neighbor fields. -/
theorem create_il_defaults {l1 l2 : String} {il : InternalLoop}
    (h : create_internal_loop_from_file_line l1 l2 = Except.ok il) :
    ∃ xs : List Int, il.neighbor5p = NbArg.ints xs
      ∧ il.neighbor3p = NbArg.ints xs := by
  unfold create_internal_loop_from_file_line at h
  obtain ⟨f10, _, h⟩ := exceptBind_ok h
  obtain ⟨f11, _, h⟩ := exceptBind_ok h
  obtain ⟨span1, _, h⟩ := exceptBind_ok h
  obtain ⟨f21, _, h⟩ := exceptBind_ok h
  obtain ⟨span2, _, h⟩ := exceptBind_ok h
  obtain ⟨f12, _, h⟩ := exceptBind_ok h
  obtain ⟨f22, _, h⟩ := exceptBind_ok h
  obtain ⟨f13, _, h⟩ := exceptBind_ok h
  obtain ⟨cpi1, _, h⟩ := exceptBind_ok h
  obtain ⟨f23, _, h⟩ := exceptBind_ok h
  obtain ⟨cpi2, _, h⟩ := exceptBind_ok h
  obtain ⟨f14, _, h⟩ := exceptBind_ok h
  obtain ⟨f24, _, h⟩ := exceptBind_ok h
  obtain ⟨a0, _, h⟩ := exceptBind_ok h
  obtain ⟨a1, _, h⟩ := exceptBind_ok h
  obtain ⟨b0, _, h⟩ := exceptBind_ok h
  obtain ⟨b1, _, h⟩ := exceptBind_ok h
  rw [← Except.ok.inj h]
  exact ⟨cpi2, rfl, rfl⟩

/-- One dispatch step preserves the neighbor-field record: every record it
stores has the neighbor fields its constructor wrote. -/
theorem processOne_inv {st st2 : Structure} {line : String}
    {rest rem : List String} (hst : constructorNeighborFields st)
    (h : processOne st line rest = Except.ok (st2, rem)) :
    constructorNeighborFields st2 := by
  unfold processOne at h
  obtain ⟨isSt, _, h⟩ := exceptBind_ok h
  cases isSt with
  | true =>
      rw [if_pos rfl] at h
      obtain ⟨s, hcre, h⟩ := exceptBind_ok h
      obtain ⟨stc, hca, h⟩ := exceptBind_ok h
      have hpair := Except.ok.inj h
      have h1 : stc = st2 := congrArg Prod.fst hpair
      subst h1
      obtain ⟨arr2, harr⟩ := withArr_ok hca
      rw [harr]
      have hd := create_stem_defaults hcre
      exact cnf_stems hst hd.1 hd.2
  | false =>
      rw [if_neg (by simp)] at h
      obtain ⟨c0, _, h⟩ := exceptBind_ok h
      by_cases hH : (c0 == "H") = true
      · rw [if_pos hH] at h
        obtain ⟨hp, hcre, h⟩ := exceptBind_ok h
        obtain ⟨stc, hca, h⟩ := exceptBind_ok h
        have h1 : stc = st2 := congrArg Prod.fst (Except.ok.inj h)
        subst h1
        obtain ⟨arr2, harr⟩ := withArr_ok hca
        rw [harr]
        exact cnf_hairpins hst (create_hairpin_defaults hcre)
      · rw [if_neg hH] at h
        by_cases hB : (c0 == "B") = true
        · rw [if_pos hB] at h
          obtain ⟨b, hcre, h⟩ := exceptBind_ok h
          obtain ⟨stc, hca, h⟩ := exceptBind_ok h
          have h1 : stc = st2 := congrArg Prod.fst (Except.ok.inj h)
          subst h1
          obtain ⟨arr2, harr⟩ := withArr_ok hca
          rw [harr]
          have hd := create_bulge_defaults hcre
          exact cnf_bulges hst hd.1 hd.2
        · rw [if_neg hB] at h
          by_cases hI : (c0 == "I" && reSearchIL line) = true
          · rw [if_pos hI] at h
            cases rest with
            | nil => exact absurd h (by simp)
            | cons l2 t =>
                obtain ⟨il, hcre, h⟩ := exceptBind_ok h
                obtain ⟨stc, hca, h⟩ := exceptBind_ok h
                have h1 : stc = st2 := congrArg Prod.fst (Except.ok.inj h)
                subst h1
                obtain ⟨arr2, harr⟩ := withArr_ok hca
                rw [harr]
                exact cnf_ils hst (create_il_defaults hcre)
          · rw [if_neg hI] at h
            by_cases hM : (c0 == "M") = true
            · rw [if_pos hM] at h
              by_cases hE : ((line :: rest).dropWhile
                  (fun l => get_loop_parent_label l
                    == get_loop_parent_label line)).isEmpty = true
              · rw [if_pos hE] at h
                exact absurd h (by simp)
              · rw [if_neg hE] at h
                obtain ⟨ml, hcre, h⟩ := exceptBind_ok h
                obtain ⟨stc, hca, h⟩ := exceptBind_ok h
                have h1 : stc = st2 := congrArg Prod.fst (Except.ok.inj h)
                subst h1
                obtain ⟨arr2, harr⟩ := withArr_ok hca
                rw [harr]
                exact hst
            · rw [if_neg hM] at h
              by_cases hX : (c0 == "X") = true
              · rw [if_pos hX] at h
                obtain ⟨x, hcre, h⟩ := exceptBind_ok h
                obtain ⟨stc, hca, h⟩ := exceptBind_ok h
                have h1 : stc = st2 := congrArg Prod.fst (Except.ok.inj h)
                subst h1
                obtain ⟨arr2, harr⟩ := withArr_ok hca
                rw [harr]
                exact hst
              · rw [if_neg hX] at h
                by_cases hN : (line.take 4 == "NCBP") = true
                · rw [if_pos hN] at h
                  obtain ⟨n, hcre, h⟩ := exceptBind_ok h
                  have h1 : _ = st2 := congrArg Prod.fst (Except.ok.inj h)
                  exact h1 ▸ hst
                · rw [if_neg hN] at h
                  by_cases hEn : (c0 == "E") = true
                  · rw [if_pos hEn] at h
                    obtain ⟨e, hcre, h⟩ := exceptBind_ok h
                    obtain ⟨stc, hca, h⟩ := exceptBind_ok h
                    have h1 : stc = st2 := congrArg Prod.fst (Except.ok.inj h)
                    subst h1
                    obtain ⟨arr2, harr⟩ := withArr_ok hca
                    rw [harr]
                    exact hst
                  · rw [if_neg hEn] at h
                    have h1 : _ = st2 := congrArg Prod.fst (Except.ok.inj h)
                    exact h1 ▸ hst

/-- The dispatch loop preserves the neighbor-field record. -/
theorem processFeatures_inv : ∀ (fuel : Nat) (fs : List String)
    (stIn stOut : Structure), constructorNeighborFields stIn →
    processFeatures stIn fs fuel = Except.ok stOut →
    constructorNeighborFields stOut := by
  intro fuel
  induction fuel with
  | zero =>
      intro fs stIn stOut h hp
      cases fs with
      | nil => exact (Except.ok.inj hp) ▸ h
      | cons a t => exact absurd hp (by simp [processFeatures])
  | succ n ih =>
      intro fs stIn stOut h hp
      cases fs with
      | nil => exact (Except.ok.inj hp) ▸ h
      | cons line rest =>
          rw [processFeatures_cons] at hp
          obtain ⟨p, h1, h2⟩ := exceptBind_ok hp
          obtain ⟨stMid, rem⟩ := p
          exact ih rem stMid stOut (processOne_inv h h1) h2

/-- The header loop preserves the neighbor-field record (it only writes
whole-molecule descriptors, or resets to the empty aggregate). -/
theorem headerLoop_inv : ∀ (lines : List String) (st : Structure)
    (fl : ReadFlags) (stOut : Structure) (fo : Option (List String)),
    constructorNeighborFields st →
    headerLoop st fl lines = Except.ok (stOut, fo) →
    constructorNeighborFields stOut := by
  intro lines
  induction lines with
  | nil =>
      intro st fl stOut fo h hp
      unfold headerLoop at hp
      have h1 : st = stOut := congrArg Prod.fst (Except.ok.inj hp)
      exact h1 ▸ h
  | cons line rest ih =>
      intro st fl stOut fo h hp
      unfold headerLoop at hp
      by_cases hc : (line.take 1 == "#") = true
      · rw [if_pos hc] at hp
        by_cases hn : (line.take 6 == "#Name:") = true
        · rw [if_pos hn] at hp
          exact ih _ _ _ _ (by exact h) hp
        · rw [if_neg hn] at hp
          by_cases hl : (line.take 8 == "#Length:") = true
          · rw [if_pos hl] at hp
            obtain ⟨nv, _, hp⟩ := exceptBind_ok hp
            obtain ⟨arr, _, hp⟩ := exceptBind_ok hp
            exact ih _ _ _ _ (by exact h) hp
          · rw [if_neg hl] at hp
            by_cases hg : (line.take 12 == "#PageNumber:") = true
            · rw [if_pos hg] at hp
              obtain ⟨nv, _, hp⟩ := exceptBind_ok hp
              exact ih _ _ _ _ (by exact h) hp
            · rw [if_neg hg] at hp
              exact ih _ _ _ _ (by exact h) hp
      · rw [if_neg hc] at hp
        by_cases h1 : (fl.sequenceRead = false)
        · rw [if_pos h1] at hp
          exact ih _ _ _ _ (by exact h) hp
        · rw [if_neg h1] at hp
          by_cases h2 : (fl.dotBracketRead = false)
          · rw [if_pos h2] at hp
            exact ih _ _ _ _ (by exact h) hp
          · rw [if_neg h2] at hp
            by_cases h3 : (fl.structureArrayRead = false)
            · rw [if_pos h3] at hp
              exact ih _ _ _ _ (by exact h) hp
            · rw [if_neg h3] at hp
              by_cases h4 : (fl.varnaRead = false)
              · rw [if_pos h4] at hp
                by_cases h5 : ({ fl with varnaRead := true }.sequenceRead
                    && { fl with varnaRead := true }.dotBracketRead
                    && { fl with varnaRead := true }.structureArrayRead
                    && { fl with varnaRead := true }.varnaRead) = true
                · rw [if_pos h5] at hp
                  have he : { st with varna := some (pyStrip line) } = stOut :=
                    congrArg Prod.fst (Except.ok.inj hp)
                  rw [← he]
                  exact h
                · rw [if_neg h5] at hp
                  exact ih _ _ _ _ cnf_initial hp
              · rw [if_neg h4] at hp
                exact ih _ _ _ _ (by exact h) hp

/-- The stem bulge-adjacency boolean pass preserves the neighbor-field
record: it only rewrites `adjacentBulges` of already-stored stems. -/
theorem stemBulgePass_inv : ∀ (ks : List String) (st stOut : Structure),
    constructorNeighborFields st → stemBulgePass st ks = Except.ok stOut →
    constructorNeighborFields stOut := by
  intro ks
  induction ks with
  | nil =>
      intro st stOut h hp
      exact (Except.ok.inj hp) ▸ h
  | cons k t ih =>
      intro st stOut h hp
      unfold stemBulgePass at hp
      obtain ⟨s, hs, hp⟩ := exceptBind_ok hp
      have hsv : s ∈ dvalues st.stems := by
        unfold dgetOrKeyError at hs
        cases hdg : dget st.stems k with
        | none => rw [hdg] at hs; exact absurd hs (by simp)
        | some sv =>
            rw [hdg] at hs
            have hv : sv = s := Except.ok.inj hs
            exact hv ▸ dget_mem hdg
      obtain ⟨ns, _, hp⟩ := exceptBind_ok hp
      cases ns with
      | noneRet => exact absurd hp (by simp)
      | flat a b => exact absurd hp (by simp)
      | nested a b c d =>
          obtain ⟨b5, _, hp⟩ := exceptBind_ok hp
          obtain ⟨b3, _, hp⟩ := exceptBind_ok hp
          have hdefault := h.1 s hsv
          exact ih _ _ (cnf_stems h (by exact hdefault.1)
            (by exact hdefault.2)) hp

/-- C2 counterexample: the section-8 scenario load succeeds, yet the
stored hairpin record still carries the constructor-default neighbor pair of
empty strings — its neighbor fields were never mutated, because
`StructureCreator.create` never invokes
`Structure._addStructureComponentNeighbors`. -/
theorem claim_C2_counterexample :
    create "scenario.st" scenarioLines = Except.ok scenarioStruct
    ∧ dget scenarioStruct.hairpins "H1"
      = some (Hairpin.make "H1" "UACG" [4, 7] ("G", "U") (3, 8))
    ∧ (Hairpin.make "H1" "UACG" [4, 7] ("G", "U") (3, 8)).neighbors
      = ("", "") :=
  ⟨by decide, by decide, by decide⟩

/-- C2 (amended): after every successful load the Adjacency Resolver has
not run at all — `create` ends with the stem bulge-adjacency boolean pass
only, and the stored neighbor fields of every stem, bulge, hairpin and
internal-loop record are exactly what the record constructors wrote:
`(empty, empty)` string pairs for stems and hairpins, `None` for bulges,
and for internal loops the loop-2 closing-pair index tuple that the creator
passes into the `neighbor5p` constructor slot, duplicated into both
fields. -/
theorem claim_C2_theorem (filename : String) (lines : List String)
    (st : Structure) (h : create filename lines = Except.ok st) :
    constructorNeighborFields st := by
  unfold create at h
  by_cases hx : (!(pyTakeRight filename 3 == ".st")) = true
  · rw [if_pos hx] at h
    exact absurd h (by simp)
  · rw [if_neg hx] at h
    obtain ⟨pr, hh, h⟩ := exceptBind_ok h
    obtain ⟨st0, fo⟩ := pr
    have h0 : constructorNeighborFields st0 :=
      headerLoop_inv lines initialStructure ReadFlags.start st0 fo
        cnf_initial hh
    cases fo with
    | none => exact absurd h (by simp)
    | some feats =>
        obtain ⟨st2, hp, h⟩ := exceptBind_ok h
        obtain ⟨st3, hb, h⟩ := exceptBind_ok h
        have h2 := processFeatures_inv feats.length feats st0 st2 h0 hp
        have h3 := stemBulgePass_inv (dkeys st2.stems) st2 st3 h2 hb
        exact (Except.ok.inj h) ▸ h3

/-- C2 witness: the amended statement applied to the scenario load. -/
theorem claim_C2_witness : constructorNeighborFields scenarioStruct :=
  claim_C2_theorem "scenario.st" scenarioLines scenarioStruct (by decide)

end BpRNA
